import Mathlib

/-!
# Analytics & Benchmarking Engine: a shallow embedding

This file is a shallow embedding, in Lean 4, of the analytics core of the
policy-simulator repository: `AdvancedAnalyticsService`
(`src/backend/services/advanced_analytics.py`) and `BenchmarkService`
(`src/backend/services/benchmark_service.py`), together with theorems that
settle a list of specification claims against that embedding.

Modelling conventions:

* IEEE-754 doubles are modelled by the type `Fad` ("float as data"): an exact
  rational together with the three special values `+inf`, `-inf` and `NaN`,
  with IEEE propagation rules for arithmetic, comparisons (every comparison
  with NaN is false) and division by zero.  Rounding is not modelled; all
  concrete inputs used in closed statements are chosen so that the float
  computation performed by the source is exact, hence agrees with the
  rational computation.
* Library routines that are external to the repository (square root on
  finite values, Student-t tail/quantile/cdf functions, the p-value of the
  Pearson test, Python float formatting, `sklearn`'s multivariate fit and
  `numpy`'s matrix inverse) are collected in a record `Ext` passed to every
  component.  Theorems are universally quantified over `Ext`, adding as
  hypotheses exactly the contracts of those routines that a statement needs
  (e.g. NaN propagation).  Closed statements instantiate `Ext` with the
  reference instantiation `extRef`; each closed statement relies on `extRef`
  only at arguments where it provably agrees with the real routine (perfect
  squares for the square root), or where the value is irrelevant to the
  stated fact.
* The behaviour of `scipy.stats.linregress`, `pearsonr` and `ttest_ind` is
  embedded from scipy's published algorithm, including its special cases
  (identical x raises only for n > 1; a single point yields NaN slope and
  r = 0; `pearsonr` raises for n < 2 and returns the sign product with
  p = 1 for n = 2 and (NaN, NaN) for constant input; the equal-variance
  `ttest_ind` uses the pooled variance).
* `pandas` row order: `sort_values` and the inner merge are modelled with a
  stable insertion sort and a left-order-preserving join.
* The `merged_df` attribute of the data processor is modelled as an optional
  `Table` (column list plus rows with a per-column optional value); `None`
  and a missing column both yield the empty series, as in the source.
* Wall-clock timestamps (`datetime.utcnow().isoformat()`, pydantic
  `default_factory=datetime.now`) are modelled by an explicit `now : String`
  argument representing the invocation instant.
-/

namespace PolicySim

/-- A float value: an exact rational (`fin`), `+inf`, `-inf`, or NaN. -/
inductive Fad where
  | fin (q : ℚ)
  | pinf
  | ninf
  | nan
deriving DecidableEq, Repr

namespace Fad

/-- IEEE negation. -/
def neg : Fad → Fad
  | fin q => fin (-q)
  | pinf => ninf
  | ninf => pinf
  | nan => nan

/-- IEEE addition (NaN propagates; opposite infinities give NaN). -/
def add : Fad → Fad → Fad
  | nan, _ => nan
  | _, nan => nan
  | fin a, fin b => fin (a + b)
  | fin _, pinf => pinf
  | fin _, ninf => ninf
  | pinf, fin _ => pinf
  | ninf, fin _ => ninf
  | pinf, pinf => pinf
  | ninf, ninf => ninf
  | pinf, ninf => nan
  | ninf, pinf => nan

/-- IEEE subtraction. -/
def sub (a b : Fad) : Fad := add a (neg b)

/-- IEEE multiplication (0 times an infinity is NaN). -/
def mul : Fad → Fad → Fad
  | nan, _ => nan
  | _, nan => nan
  | fin a, fin b => fin (a * b)
  | fin a, pinf => if a = 0 then nan else if 0 < a then pinf else ninf
  | fin a, ninf => if a = 0 then nan else if 0 < a then ninf else pinf
  | pinf, fin b => if b = 0 then nan else if 0 < b then pinf else ninf
  | ninf, fin b => if b = 0 then nan else if 0 < b then ninf else pinf
  | pinf, pinf => pinf
  | ninf, ninf => pinf
  | pinf, ninf => ninf
  | ninf, pinf => ninf

/-- IEEE division (x/0 is a signed infinity for x ≠ 0, and 0/0 is NaN). -/
def div : Fad → Fad → Fad
  | nan, _ => nan
  | _, nan => nan
  | fin a, fin b =>
      if b = 0 then (if a = 0 then nan else if 0 < a then pinf else ninf)
      else fin (a / b)
  | fin _, pinf => fin 0
  | fin _, ninf => fin 0
  | pinf, fin b => if 0 ≤ b then pinf else ninf
  | ninf, fin b => if 0 ≤ b then ninf else pinf
  | pinf, pinf => nan
  | pinf, ninf => nan
  | ninf, pinf => nan
  | ninf, ninf => nan

/-- IEEE absolute value. -/
def abs : Fad → Fad
  | fin q => fin |q|
  | pinf => pinf
  | ninf => pinf
  | nan => nan

/-- IEEE strict comparison: every comparison involving NaN is false. -/
def ltB : Fad → Fad → Bool
  | nan, _ => false
  | _, nan => false
  | fin a, fin b => a < b
  | fin _, pinf => true
  | fin _, ninf => false
  | pinf, fin _ => false
  | ninf, fin _ => true
  | pinf, pinf => false
  | ninf, ninf => false
  | ninf, pinf => true
  | pinf, ninf => false

/-- IEEE non-strict comparison: false whenever NaN is involved. -/
def leB : Fad → Fad → Bool
  | nan, _ => false
  | _, nan => false
  | fin a, fin b => a ≤ b
  | fin _, pinf => true
  | fin _, ninf => false
  | pinf, fin _ => false
  | ninf, fin _ => true
  | pinf, pinf => true
  | ninf, ninf => true
  | ninf, pinf => true
  | pinf, ninf => false

/-- IEEE equality test (`==` on floats): NaN equals nothing, not even itself. -/
def eqB : Fad → Fad → Bool
  | nan, _ => false
  | _, nan => false
  | fin a, fin b => a == b
  | pinf, pinf => true
  | ninf, ninf => true
  | _, _ => false

/-- Python's two-argument `min`: returns the second argument only when it
compares strictly below the first, hence `min(NaN, y) = NaN`. -/
def pyMin (a b : Fad) : Fad := if ltB b a then b else a

end Fad

/-- Sum of a list of rationals. -/
def sumQ (l : List ℚ) : ℚ := l.sum

/-- Arithmetic mean of a list of rationals; the guard clauses of the source
ensure this is only consulted on nonempty lists. -/
def meanQ (l : List ℚ) : ℚ := sumQ l / l.length

/-- Population variance (`numpy.var` with the default `ddof=0`). -/
def varPop (l : List ℚ) : ℚ := meanQ (l.map fun x => (x - meanQ l) ^ 2)

/-- Sample variance (`numpy.var(·, ddof=1)`): for a single observation the
denominator is zero and the IEEE quotient 0/0 is NaN, as numpy warns. -/
def varSamp (l : List ℚ) : Fad :=
  Fad.div (Fad.fin (sumQ (l.map fun x => (x - meanQ l) ^ 2)))
    (Fad.fin ((l.length : ℚ) - 1))

/-- Insert `x` into `l` placing it before the first element `y` with
`lt x y`; used to build a stable sort (ties keep encounter order). -/
def insertBy (lt : α → α → Bool) (x : α) : List α → List α
  | [] => [x]
  | y :: ys => if lt x y then x :: y :: ys else y :: insertBy lt x ys

/-- Stable insertion sort: equal-key elements keep their input order, the
behaviour of Python's `sorted` and of a stable `sort_values`. -/
def stableSortBy (lt : α → α → Bool) (l : List α) : List α :=
  l.foldl (fun acc x => insertBy lt x acc) []

/-- External numeric routines used by the services but implemented outside
the repository (scipy / sklearn / numpy / Python string formatting).  Every
component takes a value of this record; theorems quantify over it and state
the contracts they need as hypotheses. -/
structure Ext where
  /-- `numpy.sqrt` restricted to nonnegative finite doubles. -/
  sqrtQ : ℚ → ℚ
  /-- `scipy.stats.t.sf(x, df)`, the Student-t survival function. -/
  tsf : Fad → ℤ → Fad
  /-- `scipy.stats.t.ppf(p, df)`, the Student-t quantile. -/
  tppf : ℚ → ℤ → Fad
  /-- `scipy.stats.t.cdf(x, df)`. -/
  tcdf : Fad → ℤ → Fad
  /-- the two-sided p-value `scipy.stats.pearsonr` derives from (r, n). -/
  pearsonP : Fad → ℕ → Fad
  /-- Python `f"{x:.3f}"` float formatting. -/
  fmt : Fad → String
  /-- Python `f"{x:.1f}"` float formatting. -/
  fmt1 : Fad → String
  /-- Python `f"{x:.1%}"` percentage formatting. -/
  fmtPct : Fad → String
  /-- `sklearn.linear_model.LinearRegression().fit` on a multivariate
  design: rows of predictor values and the target vector, returning
  (coefficients, intercept). -/
  mfit : List (List ℚ) → List ℚ → List ℚ × ℚ
  /-- `numpy.linalg.inv`; `none` models a raised `LinAlgError`. -/
  minv : List (List ℚ) → Option (List (List ℚ))

/-- `numpy.sqrt` lifted to `Fad`: NaN for negative arguments, NaN and
infinity propagate. -/
def fadSqrt (E : Ext) : Fad → Fad
  | Fad.fin q => if q < 0 then Fad.nan else Fad.fin (E.sqrtQ q)
  | Fad.pinf => Fad.pinf
  | Fad.ninf => Fad.nan
  | Fad.nan => Fad.nan

/-- Reference square root on rationals: exact when numerator and denominator
are perfect squares (every closed statement below only consults it there). -/
def ratSqrtRef (q : ℚ) : ℚ := (Nat.sqrt q.num.toNat : ℚ) / (Nat.sqrt q.den : ℚ)

/-- Reference instantiation of the external routines, used to state closed
examples.  Each closed statement relies on it only at arguments where it
provably agrees with the real routine, or where the value does not affect
the stated fact. -/
def extRef : Ext where
  sqrtQ := ratSqrtRef
  tsf := fun x df => if df ≤ 0 then Fad.nan else (if x = Fad.nan then Fad.nan else Fad.fin (1/2))
  tppf := fun _ df => if df ≤ 0 then Fad.nan else Fad.fin 2
  tcdf := fun x df => if df ≤ 0 then Fad.nan else (if x = Fad.nan then Fad.nan else Fad.fin (1/2))
  pearsonP := fun r _ => if r = Fad.nan then Fad.nan else Fad.fin 1
  fmt := fun _ => "#"
  fmt1 := fun _ => "#"
  fmtPct := fun _ => "#"
  mfit := fun X _ => ((X.headD []).map fun _ => (0 : ℚ), 0)
  minv := fun _ => none

/-- One row of the processor's `merged_df`: a year, a country and the
per-indicator columns (a missing value models pandas NaN, removed by
`dropna`). -/
structure Row where
  year : ℤ
  country : String
  cell : String → Option ℚ

/-- The processor's `merged_df`: its column list and its rows. -/
structure Table where
  cols : List String
  rows : List Row

/-- One observation of the series returned by `_get_indicator_data`. -/
structure Entry where
  year : ℤ
  country : String
  value : ℚ
deriving DecidableEq, Repr

/-- `AdvancedAnalyticsService._get_indicator_data`: select
`[year, country, indicator]`, drop missing values, rename the indicator
column to `value`, filter by country and period, sort ascending by year.
A `None` processor frame or an absent column yields the empty series. -/
def get_indicator_data (st : Option Table) (ind : String) (country : Option String)
    (tp : Option (ℤ × ℤ)) : List Entry :=
  match st with
  | none => []
  | some t =>
      if ind ∈ t.cols then
        let base := t.rows.filterMap fun r =>
          (r.cell ind).map fun v => Entry.mk r.year r.country v
        let byCountry := match country with
          | none => base
          | some c => base.filter fun e => e.country = c
        let byPeriod := match tp with
          | none => byCountry
          | some se => byCountry.filter fun e => se.1 ≤ e.year ∧ e.year ≤ se.2
        stableSortBy (fun a b => a.year < b.year) byPeriod
      else []

/-- The biased covariance entry `ssxm = mean((x - mean x)^2)` used by
`linregress` (via `np.cov(..., bias=1)`). -/
def ssxmOf (xs : List ℚ) : ℚ := meanQ (xs.map fun a => (a - meanQ xs) ^ 2)

/-- The biased cross-covariance `ssxym = mean((x - mean x)(y - mean y))`. -/
def ssxymOf (xs ys : List ℚ) : ℚ :=
  sumQ ((xs.zip ys).map fun p => (p.1 - meanQ xs) * (p.2 - meanQ ys)) / xs.length

/-- Result record of `scipy.stats.linregress`. -/
structure LinregressResult where
  slope : Fad
  intercept : Fad
  rvalue : Fad
  pvalue : Fad
  stderr : Fad
deriving DecidableEq, Repr

/-- Every element equals the first one (`np.amax(x) == np.amin(x)`). -/
def allEqHead : List ℚ → Prop
  | [] => True
  | x :: xs => ∀ y ∈ xs, y = x

instance : DecidablePred allEqHead := by
  intro l
  cases l with
  | nil => exact .isTrue trivial
  | cons x xs => exact List.decidableBAll _ xs

/-- `scipy.stats.linregress(x, y)` embedded from scipy's published
algorithm: it raises for empty input, raises for identical x only when
n > 1 (so a single point is NOT rejected: its slope is the IEEE quotient
0/0 = NaN and its r-value is the guarded 0.0), computes slope and r from
the biased covariances, clips r into [-1, 1], special-cases the p-value
and standard error at n = 2, and otherwise uses the Student-t tail with
scipy's TINY = 1e-20 guard. -/
def linregressE (E : Ext) (x : List ℚ) (y : List ℚ) : Except String LinregressResult :=
  if x.length = 0 ∨ y.length = 0 then .error "Inputs must not be empty."
  else if allEqHead x ∧ 1 < x.length then
    .error "Cannot calculate a linear regression if all x values are identical"
  else
    let n : ℕ := x.length
    let xmean := meanQ x
    let ymean := meanQ y
    let ssxm := ssxmOf x
    let ssym := ssxmOf y
    let ssxym := ssxymOf x y
    let r : Fad :=
      if ssxm = 0 ∨ ssym = 0 then Fad.fin 0
      else
        let r0 := Fad.div (Fad.fin ssxym) (fadSqrt E (Fad.fin (ssxm * ssym)))
        if Fad.ltB (Fad.fin 1) r0 then Fad.fin 1
        else if Fad.ltB r0 (Fad.fin (-1)) then Fad.fin (-1) else r0
    let slope := Fad.div (Fad.fin ssxym) (Fad.fin ssxm)
    let intercept := Fad.sub (Fad.fin ymean) (Fad.mul slope (Fad.fin xmean))
    if n = 2 then
      .ok { slope := slope, intercept := intercept, rvalue := r
            pvalue := if y.headD 0 = y.getLastD 0 then Fad.fin 1 else Fad.fin 0
            stderr := Fad.fin 0 }
    else
      let df : ℤ := (n : ℤ) - 2
      let tiny : ℚ := 1 / 10 ^ 20
      let tstat := Fad.mul r (fadSqrt E (Fad.div (Fad.fin (df : ℚ))
        (Fad.mul (Fad.add (Fad.sub (Fad.fin 1) r) (Fad.fin tiny))
          (Fad.add (Fad.add (Fad.fin 1) r) (Fad.fin tiny)))))
      let prob := Fad.mul (Fad.fin 2) (E.tsf (Fad.abs tstat) df)
      let stderr := fadSqrt E (Fad.div (Fad.div (Fad.mul
        (Fad.sub (Fad.fin 1) (Fad.mul r r)) (Fad.fin ssym)) (Fad.fin ssxm))
        (Fad.fin (df : ℚ)))
      .ok { slope := slope, intercept := intercept, rvalue := r
            pvalue := prob, stderr := stderr }

/-- Result of `perform_trend_analysis` (the `result` dict of the source,
without the echoed request fields that no claim mentions). -/
structure TrendResult where
  indicator : String
  country : String
  period_start : ℤ
  period_end : ℤ
  trend_direction : String
  trend_strength : Fad
  annual_change : Fad
  total_change : Fad
  change_percentage : Fad
  statistical_significance : Fad
  ci_lower : Fad
  ci_upper : Fad
  r_squared : Fad
  sample_size : ℕ
  data_points : List (ℤ × ℚ)
deriving DecidableEq, Repr

/-- `AdvancedAnalyticsService.perform_trend_analysis`: empty series is
rejected with the `No data available` error; a raised `linregress` failure
is caught and wrapped as `Trend analysis failed: ...`; otherwise the result
dict is assembled (direction from the slope sign, strength `|r|`, 95% slope
confidence interval, change percentage guarded against a zero first
value). -/
def perform_trend_analysis (E : Ext) (st : Option Table) (indicator country : String)
    (tp : Option (ℤ × ℤ)) : Except String TrendResult :=
  let ser := get_indicator_data st indicator (some country) tp
  if ser.isEmpty then .error "No data available for the specified parameters"
  else
    let years := ser.map fun e => (e.year : ℚ)
    let values := ser.map fun e => e.value
    match linregressE E years values with
    | .error e => .error ("Trend analysis failed: " ++ e)
    | .ok lr =>
        let direction :=
          if Fad.ltB (Fad.fin 0) lr.slope then "increasing"
          else if Fad.ltB lr.slope (Fad.fin 0) then "decreasing" else "stable"
        let n := ser.length
        let tCrit := E.tppf (975 / 1000) ((n : ℤ) - 2)
        let margin := Fad.mul tCrit lr.stderr
        let totalChange := Fad.mul lr.slope
          (Fad.fin ((years.getLastD 0) - (years.headD 0)))
        let changePct :=
          if values.headD 0 ≠ 0 then
            Fad.mul (Fad.div totalChange (Fad.fin (values.headD 0))) (Fad.fin 100)
          else Fad.fin 0
        .ok {
          indicator := indicator
          country := country
          period_start := (ser.headD ⟨0, "", 0⟩).year
          period_end := (ser.getLastD ⟨0, "", 0⟩).year
          trend_direction := direction
          trend_strength := Fad.abs lr.rvalue
          annual_change := lr.slope
          total_change := totalChange
          change_percentage := changePct
          statistical_significance := lr.pvalue
          ci_lower := Fad.sub lr.slope margin
          ci_upper := Fad.add lr.slope margin
          r_squared := Fad.mul lr.rvalue lr.rvalue
          sample_size := n
          data_points := ser.map fun e => (e.year, e.value) }

/-- Sign of a rational (`numpy.sign`). -/
def qSign (q : ℚ) : ℚ := if 0 < q then 1 else if q < 0 then -1 else 0

/-- The inner merge of two series on (year, country), preserving the order
of the left frame (pandas `merge(..., how='inner')`), keeping the pair of
`value` columns. -/
def joinPairs (l1 l2 : List Entry) : List (ℚ × ℚ) :=
  l1.flatMap fun a =>
    (l2.filter fun b => a.year == b.year && a.country == b.country).map fun b =>
      (a.value, b.value)

/-- The normalised dot product at the heart of `pearsonr`: centre both
columns, divide by the column norms, and sum the products. -/
def r0Of (E : Ext) (ps : List (ℚ × ℚ)) : ℚ :=
  let mx := meanQ (ps.map Prod.fst)
  let my := meanQ (ps.map Prod.snd)
  let nx := E.sqrtQ (sumQ ((ps.map Prod.fst).map fun a => (a - mx) ^ 2))
  let ny := E.sqrtQ (sumQ ((ps.map Prod.snd).map fun b => (b - my) ^ 2))
  sumQ (ps.map fun p => ((p.1 - mx) / nx) * ((p.2 - my) / ny))

/-- `scipy.stats.pearsonr` embedded from scipy's published algorithm:
raises for fewer than 2 points; for exactly 2 points returns the product of
the difference signs with p-value 1; for a constant input returns
(NaN, NaN) after warning; otherwise normalises the centred vectors (the
norms are nonzero because the constant case was excluded, so the rational
quotients below coincide with the float computation), takes their dot
product, clips it into [-1, 1] and derives the two-sided p-value from
(r, n). -/
def pearsonE (E : Ext) (ps : List (ℚ × ℚ)) : Except String (Fad × Fad) :=
  let n := ps.length
  if n < 2 then .error "x and y must have length at least 2."
  else if n = 2 then
    .ok (Fad.fin (qSign ((ps.getLastD (0, 0)).1 - (ps.headD (0, 0)).1) *
                  qSign ((ps.getLastD (0, 0)).2 - (ps.headD (0, 0)).2)), Fad.fin 1)
  else
    let xs := ps.map Prod.fst
    let ys := ps.map Prod.snd
    if allEqHead xs ∨ allEqHead ys then .ok (Fad.nan, Fad.nan)
    else
      let r0 := r0Of E ps
      let r := if 1 < r0 then (1 : ℚ) else if r0 < -1 then -1 else r0
      .ok (Fad.fin r, E.pearsonP (Fad.fin r) n)

/-- `AdvancedAnalyticsService._calculate_indicator_correlation`: fetch both
series unfiltered by country (the `countries` parameter of the caller is
not consulted, as in the source), merge on (year, country), return the
degenerate (0.0, 1.0) when either frame or the merge is empty, and also
when `pearsonr` raises (the enclosing `except` clause), else the Pearson
pair. -/
def calculate_indicator_correlation (E : Ext) (st : Option Table)
    (ind1 ind2 : String) (tp : Option (ℤ × ℤ)) : Fad × Fad :=
  let df1 := get_indicator_data st ind1 none tp
  let df2 := get_indicator_data st ind2 none tp
  if df1.isEmpty ∨ df2.isEmpty then (Fad.fin 0, Fad.fin 1)
  else
    let merged := joinPairs df1 df2
    if merged.isEmpty then (Fad.fin 0, Fad.fin 1)
    else
      match pearsonE E merged with
      | .error _ => (Fad.fin 0, Fad.fin 1)
      | .ok rp => rp

/-- `AdvancedAnalyticsService._interpret_correlation_matrix`: one sentence
per pair (i, j), i < j, with p < 0.05, classifying |r|; a fixed message when
no pair qualifies. -/
def interpret_correlation_matrix (E : Ext) (inds : List String)
    (entry : ℕ → ℕ → Fad × Fad) : String :=
  let pieces := (List.range inds.length).flatMap fun i =>
    (List.range inds.length).filterMap fun j =>
      if i < j then
        let c := (entry i j).1
        let p := (entry i j).2
        if Fad.ltB p (Fad.fin (5 / 100)) then
          let strength :=
            if Fad.ltB (Fad.fin (7 / 10)) (Fad.abs c) then "strong"
            else if Fad.ltB (Fad.fin (5 / 10)) (Fad.abs c) then "moderate" else "weak"
          let dir := if Fad.ltB (Fad.fin 0) c then "positive" else "negative"
          some (inds.getD i "" ++ " and " ++ inds.getD j "" ++ " show a " ++ strength ++
            " " ++ dir ++ " correlation (r = " ++ E.fmt c ++ ", p = " ++ E.fmt p ++ ")")
        else none
      else none
  if pieces.isEmpty then "No significant correlations found"
  else String.intercalate "; " pieces

/-- Result record of `calculate_correlations`. -/
structure CorrelationsResult where
  indicators : List String
  countries : Option (List String)
  time_period : Option (ℤ × ℤ)
  matrix : List (List Fad)
  significance_matrix : List (List Fad)
  interpretation : String
  sample_size : ℕ
  generated_at : String
deriving DecidableEq, Repr

/-- `AdvancedAnalyticsService.calculate_correlations`: collect the
`correlation_data` dict (one key per indicator, or per indicator/country
combination, with a nonempty series; duplicate keys collapse), reject fewer
than 2 keys, then fill the n-by-n matrices: diagonal (1.0, 0.0), and each
off-diagonal cell computed by `_calculate_indicator_correlation` - each
cell separately, so symmetry is a property of the pair computation, not of
an explicit mirroring step. -/
def calculate_correlations (E : Ext) (st : Option Table) (indicators : List String)
    (countries : Option (List String)) (tp : Option (ℤ × ℤ)) (now : String) :
    Except String CorrelationsResult :=
  let keys : List String :=
    match countries with
    | some cs => indicators.flatMap fun ind => cs.filterMap fun c =>
        if (get_indicator_data st ind (some c) tp).isEmpty then none
        else some (ind ++ "_" ++ c)
    | none => indicators.filterMap fun ind =>
        if (get_indicator_data st ind none tp).isEmpty then none else some ind
  let nkeys := keys.eraseDups.length
  if nkeys < 2 then .error "Insufficient data for correlation analysis"
  else
    let n := indicators.length
    let entry : ℕ → ℕ → Fad × Fad := fun i j =>
      if i = j then (Fad.fin 1, Fad.fin 0)
      else calculate_indicator_correlation E st (indicators.getD i "")
        (indicators.getD j "") tp
    .ok {
      indicators := indicators
      countries := countries
      time_period := tp
      matrix := (List.range n).map fun i => (List.range n).map fun j => (entry i j).1
      significance_matrix :=
        (List.range n).map fun i => (List.range n).map fun j => (entry i j).2
      interpretation := interpret_correlation_matrix E indicators entry
      sample_size := nkeys
      generated_at := now }

/-- `sklearn.linear_model.LinearRegression` on a single feature: the
ordinary least-squares slope and intercept; for a constant feature the
minimum-norm least-squares solution has slope 0 and intercept the target
mean. -/
def linFit (xs ys : List ℚ) : ℚ × ℚ :=
  let mx := meanQ xs
  let my := meanQ ys
  let sxx := sumQ (xs.map fun a => (a - mx) ^ 2)
  if sxx = 0 then (0, my)
  else
    let slope := sumQ ((xs.zip ys).map fun p => (p.1 - mx) * (p.2 - my)) / sxx
    (slope, my - slope * mx)

/-- `sklearn.metrics.r2_score`: `1 - RSS/TSS`, with the degenerate
constant-target cases (TSS = 0) mapped to 1.0 for a perfect fit and 0.0
otherwise. -/
def r2score (ys preds : List ℚ) : ℚ :=
  let my := meanQ ys
  let rss := sumQ ((ys.zip preds).map fun p => (p.1 - p.2) ^ 2)
  let tss := sumQ (ys.map fun y => (y - my) ^ 2)
  if tss = 0 then (if rss = 0 then 1 else 0) else 1 - rss / tss

/-- One forecast point with its prediction interval. -/
structure ForecastPoint where
  year : ℤ
  predicted_value : ℚ
  ci_lower : Fad
  ci_upper : Fad
deriving DecidableEq, Repr

/-- Result record of `generate_forecast`. -/
structure ForecastResult where
  indicator : String
  country : String
  forecast_years : ℕ
  confidence_level : ℚ
  r_squared : ℚ
  rmse : ℚ
  trend_slope : ℚ
  intercept : ℚ
  historical_data : List (ℤ × ℚ)
  forecast_data : List ForecastPoint
  generated_at : String
deriving DecidableEq, Repr

/-- The forecast year axis: the `h` consecutive years immediately after
the last observed year (`range(last_year + 1, last_year + h + 1)`). -/
def forecast_years_list (lastYear : ℤ) (h : ℕ) : List ℤ :=
  (List.range h).map fun k => lastYear + 1 + (k : ℤ)

/-- `AdvancedAnalyticsService.generate_forecast`: requires at least 3
historical points, fits OLS of value on year, forecasts the `h` years
immediately after the last observed year, and attaches to every forecast
year the same margin `t_((1+cl)/2, n-2) * sqrt(mean squared residual) *
sqrt(1 + 1/n)`. -/
def generate_forecast (E : Ext) (st : Option Table) (indicator country : String)
    (h : ℕ) (cl : ℚ) (now : String) : Except String ForecastResult :=
  let ser := get_indicator_data st indicator (some country) none
  if ser.isEmpty ∨ ser.length < 3 then
    .error "Insufficient historical data for forecasting"
  else
    let years := ser.map fun e => (e.year : ℚ)
    let values := ser.map fun e => e.value
    let fit := linFit years values
    let pred : ℚ → ℚ := fun x => fit.1 * x + fit.2
    let lastYear := (ser.getLastD ⟨0, "", 0⟩).year
    let fyears := forecast_years_list lastYear h
    let residuals := (years.zip values).map fun p => p.2 - pred p.1
    let mse := meanQ (residuals.map fun r => r ^ 2)
    let stdError := E.sqrtQ mse
    let n := ser.length
    let tCrit := E.tppf ((1 + cl) / 2) ((n : ℤ) - 2)
    let margin := Fad.mul (Fad.mul tCrit (Fad.fin stdError))
      (fadSqrt E (Fad.fin (1 + 1 / (n : ℚ))))
    .ok {
      indicator := indicator
      country := country
      forecast_years := h
      confidence_level := cl
      r_squared := r2score values (years.map pred)
      rmse := E.sqrtQ (meanQ (((years.map pred).zip values).map fun p => (p.2 - p.1) ^ 2))
      trend_slope := fit.1
      intercept := fit.2
      historical_data := ser.map fun e => (e.year, e.value)
      forecast_data := fyears.map fun y =>
        { year := y
          predicted_value := pred (y : ℚ)
          ci_lower := Fad.sub (Fad.fin (pred (y : ℚ))) margin
          ci_upper := Fad.add (Fad.fin (pred (y : ℚ))) margin }
      generated_at := now }

/-- Result record of `statistical_significance_test`. -/
structure SigTestResult where
  indicator : String
  country1 : String
  country2 : String
  time_period : Option (ℤ × ℤ)
  t_statistic : Fad
  p_value : Fad
  significance_level : String
  cohens_d : Fad
  effect_size_interpretation : String
  mean1 : ℚ
  std1 : ℚ
  n1 : ℕ
  mean2 : ℚ
  std2 : ℚ
  n2 : ℕ
  interpretation : String
  generated_at : String
deriving DecidableEq, Repr

/-- `AdvancedAnalyticsService._interpret_statistical_test`. -/
def interpret_statistical_test (E : Ext) (c1 c2 : String) (p d : Fad) : String :=
  let significance :=
    if Fad.ltB p (Fad.fin (5 / 100)) then "statistically significant"
    else "not statistically significant"
  let effect :=
    if Fad.ltB (Fad.abs d) (Fad.fin (2 / 10)) then "negligible"
    else if Fad.ltB (Fad.abs d) (Fad.fin (5 / 10)) then "small"
    else if Fad.ltB (Fad.abs d) (Fad.fin (8 / 10)) then "medium"
    else "large"
  "The difference between " ++ c1 ++ " and " ++ c2 ++ " is " ++ significance ++
    " (p = " ++ E.fmt p ++ ") with a " ++ effect ++ " effect size (Cohen's d = " ++
    E.fmt d ++ ")"

/-- The pooled-variance numerator/denominator shared by scipy's
equal-variance `ttest_ind` and the service's own Cohen's d: the IEEE value
of `((n1-1)*var1 + (n2-1)*var2) / (n1+n2-2)` with sample variances
(`ddof=1`); NaN when both samples are singletons. -/
def pooledVar (v1 : List ℚ) (v2 : List ℚ) : Fad :=
  Fad.div
    (Fad.add (Fad.mul (Fad.fin ((v1.length : ℚ) - 1)) (varSamp v1))
             (Fad.mul (Fad.fin ((v2.length : ℚ) - 1)) (varSamp v2)))
    (Fad.fin ((v1.length : ℚ) + (v2.length : ℚ) - 2))

/-- `scipy.stats.ttest_ind(a, b)` (default `equal_var=True`): the pooled
t-statistic and its two-sided p-value from the Student-t tail at
`n1 + n2 - 2` degrees of freedom. -/
def ttestInd (E : Ext) (v1 v2 : List ℚ) : Fad × Fad :=
  let dfT : ℤ := (v1.length : ℤ) + (v2.length : ℤ) - 2
  let denom := fadSqrt E (Fad.mul (pooledVar v1 v2)
    (Fad.fin (1 / (v1.length : ℚ) + 1 / (v2.length : ℚ))))
  let t := Fad.div (Fad.fin (meanQ v1 - meanQ v2)) denom
  (t, Fad.mul (Fad.fin 2) (E.tsf (Fad.abs t) dfT))

/-- `AdvancedAnalyticsService.statistical_significance_test`: rejects an
empty series on either side with the `Insufficient data` error, otherwise
returns the pooled two-sample t-test, Cohen's d from the pooled standard
deviation, the significance and effect-size labels, and descriptive
statistics.  Note that two singleton samples are NOT rejected: every
NaN comparison is false, so they label as "not significant" / "large". -/
def statistical_significance_test (E : Ext) (st : Option Table)
    (indicator country1 country2 : String) (tp : Option (ℤ × ℤ)) (now : String) :
    Except String SigTestResult :=
  let df1 := get_indicator_data st indicator (some country1) tp
  let df2 := get_indicator_data st indicator (some country2) tp
  if df1.isEmpty ∨ df2.isEmpty then .error "Insufficient data for statistical test"
  else
    let values1 := df1.map fun e => e.value
    let values2 := df2.map fun e => e.value
    let tp' := ttestInd E values1 values2
    let pooledStd := fadSqrt E (pooledVar values1 values2)
    let d := Fad.div (Fad.fin (meanQ values1 - meanQ values2)) pooledStd
    let p := tp'.2
    .ok {
      indicator := indicator
      country1 := country1
      country2 := country2
      time_period := tp
      t_statistic := tp'.1
      p_value := p
      significance_level :=
        if Fad.ltB p (Fad.fin (1 / 1000)) then "highly significant (p < 0.001)"
        else if Fad.ltB p (Fad.fin (1 / 100)) then "very significant (p < 0.01)"
        else if Fad.ltB p (Fad.fin (5 / 100)) then "significant (p < 0.05)"
        else if Fad.ltB p (Fad.fin (1 / 10)) then "marginally significant (p < 0.1)"
        else "not significant (p >= 0.1)"
      cohens_d := d
      effect_size_interpretation :=
        if Fad.ltB (Fad.abs d) (Fad.fin (2 / 10)) then "negligible"
        else if Fad.ltB (Fad.abs d) (Fad.fin (5 / 10)) then "small"
        else if Fad.ltB (Fad.abs d) (Fad.fin (8 / 10)) then "medium"
        else "large"
      mean1 := meanQ values1
      std1 := E.sqrtQ (varPop values1)
      n1 := values1.length
      mean2 := meanQ values2
      std2 := E.sqrtQ (varPop values2)
      n2 := values2.length
      interpretation := interpret_statistical_test E country1 country2 p d
      generated_at := now }

/-- A row of a merged pandas frame: key columns plus the value columns in
the order of `Frame.cols`. -/
structure FrameRow where
  year : ℤ
  country : String
  vals : List ℚ
deriving DecidableEq, Repr

/-- A pandas frame as produced by `_prepare_regression_data`: the names of
the value columns (beyond `year`/`country`) and the rows. -/
structure Frame where
  cols : List String
  rows : List FrameRow
deriving DecidableEq, Repr

/-- The single-indicator series as a frame: `_get_indicator_data` renames
the indicator column to the literal name `value`. -/
def seriesFrame (l : List Entry) : Frame :=
  { cols := ["value"], rows := l.map fun e => FrameRow.mk e.year e.country [e.value] }

/-- The pandas suffix rule for an inner merge: a column name occurring on
both sides gets `_x` on the left and `_y` on the right. -/
def suffixCols (left right : List String) : List String :=
  (left.map fun c => if c ∈ right then c ++ "_x" else c) ++
    (right.map fun c => if c ∈ left then c ++ "_y" else c)

/-- `pd.merge(a, b, on=['year','country'], how='inner')`: left-order
preserving inner join, value columns concatenated under the suffix rule. -/
def mergeFrames (a b : Frame) : Frame :=
  { cols := suffixCols a.cols b.cols
    rows := a.rows.flatMap fun r1 =>
      (b.rows.filter fun r2 => r1.year == r2.year && r1.country == r2.country).map
        fun r2 => FrameRow.mk r1.year r1.country (r1.vals ++ r2.vals) }

/-- `AdvancedAnalyticsService._prepare_regression_data`: fetch the target
series (empty target means an empty frame), fetch each predictor series
keeping only the nonempty ones (none nonempty means an empty frame), merge
them all on (year, country), then filter by the requested countries.  Every
constituent frame carries its value column under the literal name `value`,
so the merged columns are `value` decorated with `_x`/`_y` suffixes - never
an indicator name. -/
def prepare_regression_data (st : Option Table) (target : String)
    (preds : List String) (countries : Option (List String)) (tp : Option (ℤ × ℤ)) :
    Frame :=
  let targetDf := get_indicator_data st target none tp
  if targetDf.isEmpty then { cols := [], rows := [] }
  else
    let predDfs := (preds.map fun p => get_indicator_data st p none tp).filter
      fun df => !df.isEmpty
    if predDfs.isEmpty then { cols := [], rows := [] }
    else
      let merged := predDfs.foldl (fun acc df => mergeFrames acc (seriesFrame df))
        (seriesFrame targetDf)
      match countries with
      | none => merged
      | some cs => { cols := merged.cols
                     rows := merged.rows.filter fun r => r.country ∈ cs }

/-- Dot product of two coefficient/value lists. -/
def dotQ (a b : List ℚ) : ℚ := sumQ ((a.zip b).map fun p => p.1 * p.2)

/-- The (k+1)-by-(k+1) matrix `X_with_intercept.T @ X_with_intercept`. -/
def xtxMatrix (rows : List (List ℚ)) (m : ℕ) : List (List ℚ) :=
  (List.range m).map fun i => (List.range m).map fun j =>
    sumQ (rows.map fun r => r.getD i 0 * r.getD j 0)

/-- Per-coefficient significance block of the regression result; `none`
models the source's `None` for NaN entries. -/
structure CoefSig where
  coefficient : ℚ
  std_error : Option Fad
  t_statistic : Option Fad
  p_value : Option Fad
  significant : Bool
deriving DecidableEq, Repr

/-- Result record of `multi_variable_regression`. -/
structure RegressionResult where
  target_indicator : String
  predictor_indicators : List String
  countries : Option (List String)
  time_period : Option (ℤ × ℤ)
  r_squared : ℚ
  adjusted_r_squared : Fad
  mse : ℚ
  rmse : ℚ
  intercept : ℚ
  feature_importance : List (String × ℚ)
  coefficient_significance : List (String × CoefSig)
  sample_size : ℕ
  degrees_of_freedom : ℤ
  interpretation : String
  generated_at : String
deriving DecidableEq, Repr

/-- `AdvancedAnalyticsService._interpret_regression_results`: the variance
sentence plus the most important predictor by absolute coefficient
(Python's stable `sorted(..., reverse=True)`). -/
def interpret_regression_results (E : Ext) (target : String)
    (r2 : ℚ) (fi : List (String × ℚ)) : String :=
  let head := "The regression model explains " ++ E.fmtPct (Fad.fin r2) ++
    " of the variance in " ++ target ++ ". "
  match stableSortBy (fun a b => |b.2| < |a.2|) fi with
  | [] => head
  | top :: _ =>
      head ++ "The most important predictor is " ++ top.1 ++ " " ++
        (if 0 < top.2 then "(positive effect: " ++ E.fmt (Fad.fin top.2) ++ ")."
         else "(negative effect: " ++ E.fmt (Fad.fin top.2) ++ ").")

/-- `AdvancedAnalyticsService.multi_variable_regression`: only an empty
joined frame is rejected with the `Insufficient data` error; on a nonempty
frame the source immediately selects `regression_data[target_indicator]`,
and since the join columns are suffixed `value` names (never an indicator
name), this raises `KeyError(target)` which the enclosing `except` turns
into the generic `Regression analysis failed: '<target>'` error.  The
continuation (fit, diagnostics with `df_residual = n - k - 1`) is embedded
for completeness; it is reachable only if an indicator is literally named
like a suffixed `value` column. -/
def multi_variable_regression (E : Ext) (st : Option Table) (target : String)
    (preds : List String) (countries : Option (List String)) (tp : Option (ℤ × ℤ))
    (now : String) : Except String RegressionResult :=
  let rd := prepare_regression_data st target preds countries tp
  if rd.rows.isEmpty then .error "Insufficient data for regression analysis"
  else if target ∉ rd.cols then
    .error ("Regression analysis failed: '" ++ target ++ "'")
  else if ¬ (∀ p ∈ preds, p ∈ rd.cols) then
    -- the pandas KeyError message for a missing column list is abbreviated
    .error ("Regression analysis failed: predictor columns not in index")
  else
    let colVal : FrameRow → String → ℚ := fun r c => r.vals.getD (rd.cols.indexOf c) 0
    let ys := rd.rows.map fun r => colVal r target
    let X := rd.rows.map fun r => preds.map fun p => colVal r p
    let fit := E.mfit X ys
    let predictions := X.map fun row => dotQ fit.1 row + fit.2
    let r2 := r2score ys predictions
    let mseQ := meanQ ((ys.zip predictions).map fun p => (p.1 - p.2) ^ 2)
    let residuals := (ys.zip predictions).map fun p => p.1 - p.2
    let n := ys.length
    let k := preds.length
    let dfRes : ℤ := (n : ℤ) - (k : ℤ) - 1
    let rss := sumQ (residuals.map fun r => r ^ 2)
    let mseResidual := Fad.div (Fad.fin rss) (Fad.fin (dfRes : ℚ))
    let xint := rd.rows.map fun r => (1 : ℚ) :: (preds.map fun p => colVal r p)
    let stdErrors : List Fad :=
      match E.minv (xtxMatrix xint (k + 1)) with
      | some cov => (List.range k).map fun i =>
          fadSqrt E (Fad.mul mseResidual (Fad.fin ((cov.getD (i + 1) []).getD (i + 1) 0)))
      | none => List.replicate k Fad.nan
    let tStats := (fit.1.zip stdErrors).map fun p => Fad.div (Fad.fin p.1) p.2
    let pVals := tStats.map fun t =>
      Fad.mul (Fad.fin 2) (Fad.sub (Fad.fin 1) (E.tcdf (Fad.abs t) dfRes))
    .ok {
      target_indicator := target
      predictor_indicators := preds
      countries := countries
      time_period := tp
      r_squared := r2
      adjusted_r_squared := Fad.sub (Fad.fin 1)
        (Fad.div (Fad.mul (Fad.fin (1 - r2)) (Fad.fin ((n : ℚ) - 1))) (Fad.fin (dfRes : ℚ)))
      mse := mseQ
      rmse := E.sqrtQ mseQ
      intercept := fit.2
      feature_importance := preds.zip fit.1
      coefficient_significance := (List.range k).map fun i =>
        (preds.getD i "",
         { coefficient := fit.1.getD i 0
           std_error := if stdErrors.getD i Fad.nan = Fad.nan then none
                        else some (stdErrors.getD i Fad.nan)
           t_statistic := if tStats.getD i Fad.nan = Fad.nan then none
                          else some (tStats.getD i Fad.nan)
           p_value := if pVals.getD i Fad.nan = Fad.nan then none
                      else some (pVals.getD i Fad.nan)
           significant := if pVals.getD i Fad.nan = Fad.nan then false
                          else Fad.ltB (pVals.getD i Fad.nan) (Fad.fin (5 / 100)) })
      sample_size := n
      degrees_of_freedom := dfRes
      interpretation := interpret_regression_results E target r2 (preds.zip fit.1)
      generated_at := now }

/-- `MetricType` of `benchmark_models.py` (a string enum). -/
inductive MetricType where
  | life_expectancy
  | doctor_density
  | nurse_density
  | health_spending
deriving DecidableEq, Repr

/-- The string value of the enum member (`metric.value`). -/
def metricValueStr : MetricType → String
  | .life_expectancy => "life_expectancy"
  | .doctor_density => "doctor_density"
  | .nurse_density => "nurse_density"
  | .health_spending => "health_spending"

/-- `BenchmarkService._get_metric_value`: the `metric_mapping` lookup key
(note `HEALTH_SPENDING` reads the `government_spending` field) applied to
the country-data dict. -/
def get_metric_value (data : String → Option ℚ) : MetricType → Option ℚ
  | .life_expectancy => data "life_expectancy"
  | .doctor_density => data "doctor_density"
  | .nurse_density => data "nurse_density"
  | .health_spending => data "government_spending"

/-- `BenchmarkService._get_metric_unit`. -/
def get_metric_unit : MetricType → String
  | .life_expectancy => "years"
  | .doctor_density => "per 1,000 population"
  | .nurse_density => "per 1,000 population"
  | .health_spending => "% of GDP"

/-- `BenchmarkService._calculate_trend` always answers STABLE in the
source. -/
def calculate_trend (_country : String) (_m : MetricType) : String := "stable"

/-- The `HealthMetric` pydantic model. -/
structure HealthMetric where
  name : String
  value : ℚ
  unit : String
  rank : ℕ
  percentile : ℚ
  trend : String
  anomaly : Bool
  baseline_year : ℤ
deriving DecidableEq, Repr

/-- The per-metric value extraction loop of `_calculate_rankings` (lines
184-189): one (country, value) pair per country whose data carries the
metric, in input order. -/
def metric_values_of (countryData : List (String × (String → Option ℚ)))
    (m : MetricType) : List (String × ℚ) :=
  countryData.filterMap fun cd => (get_metric_value cd.2 m).map fun v => (cd.1, v)

/-- The ranking loop of `BenchmarkService._calculate_rankings` (lines
196-216) for one metric: stable sort by value descending (Python `sorted`
with `reverse=True` keeps ties in input order), then
`rank = position + 1` and `percentile = (N - rank + 1) / N * 100`. -/
def rank_metric (m : MetricType) (year : ℤ) (values : List (String × ℚ)) :
    List (String × HealthMetric) :=
  let sorted := stableSortBy (fun a b => b.2 < a.2) values
  sorted.enum.map fun p =>
    (p.2.1,
     { name := metricValueStr m
       value := p.2.2
       unit := get_metric_unit m
       rank := p.1 + 1
       percentile := ((sorted.length : ℚ) - (p.1 + 1) + 1) / (sorted.length : ℚ) * 100
       trend := calculate_trend p.2.1 m
       anomaly := false
       baseline_year := year })

/-- The `AnomalyAlert` pydantic model; `detected_at` is the
`default_factory=datetime.now` timestamp, made explicit. -/
structure AnomalyAlert where
  country : String
  metric : String
  severity : String
  description : String
  confidence : Fad
  recommendation : String
  detected_at : String
deriving DecidableEq, Repr

/-- `BenchmarkService._get_anomaly_recommendation`. -/
def get_anomaly_recommendation (m : MetricType) (current mean : ℚ) : String :=
  if mean < current then
    "Current " ++ metricValueStr m ++
      " is higher than historical average. Consider investigate the improvement."
  else
    "Current " ++ metricValueStr m ++
      " is lower than historical average. Consider address the decline."

/-- The z-score computed by `_detect_anomalies`:
`abs(value - mean(hist)) / np.std(hist)` in IEEE arithmetic. -/
def anomaly_z (E : Ext) (hvals : List ℚ) (v : ℚ) : Fad :=
  Fad.div (Fad.abs (Fad.sub (Fad.fin v) (Fad.fin (meanQ hvals))))
    (fadSqrt E (Fad.fin (varPop hvals)))

/-- `BenchmarkService._get_historical_values`: the source returns `[]`
unconditionally ("Simplified - in real implementation, would query
historical data"). -/
def get_historical_values (_country : String) (_m : MetricType) (_years : ℕ) :
    List ℚ := []

/-- `BenchmarkService._detect_anomalies` (the z-score flagger used by
`compare_countries`), calling the source's `_get_historical_values` for the
historical window (a placeholder that always returns `[]`, so the filter
below never passes and no alert is ever produced).  For each (country,
metric) with a value: skip under 3 historical points, skip zero standard
deviation, flag when the z-score exceeds the fixed thresholds 3 / 2 / 1.5 -
the request's `sensitivity` parameter is not consulted anywhere in this
method. -/
def detect_anomalies_impl (E : Ext)
    (countryData : List (String × (String → Option ℚ))) (metrics : List MetricType)
    (now : String) : List AnomalyAlert :=
  countryData.flatMap fun cd =>
    metrics.filterMap fun m =>
      match get_metric_value cd.2 m with
      | none => none
      | some v =>
          let hvals := get_historical_values cd.1 m 5
          if hvals.length < 3 then none
          else
            let meanV := meanQ hvals
            let stdV := fadSqrt E (Fad.fin (varPop hvals))
            if Fad.eqB stdV (Fad.fin 0) then none
            else
              let z := anomaly_z E hvals v
              let sev :=
                if Fad.ltB (Fad.fin 3) z then some "high"
                else if Fad.ltB (Fad.fin 2) z then some "medium"
                else if Fad.ltB (Fad.fin (3 / 2)) z then some "low"
                else none
              sev.map fun s =>
                { country := cd.1
                  metric := metricValueStr m
                  severity := s
                  description := metricValueStr m ++ " is " ++ E.fmt1 z ++
                    " standard deviations from historical average"
                  confidence := Fad.pyMin (Fad.div z (Fad.fin 3)) (Fad.fin 1)
                  recommendation := get_anomaly_recommendation m v meanV
                  detected_at := now }

/-- The `AnomalyDetectionRequest` pydantic model (sensitivity defaults to
2.0 there). -/
structure AnomalyDetectionRequest where
  country : Option String
  metric : Option MetricType
  timeframe : ℕ
  sensitivity : ℚ
deriving DecidableEq, Repr

/-- The `AnomalyDetectionResponse` pydantic model
(`generated_at` has `default_factory=datetime.now`, modelled as the
explicit `now` argument of the constructor site). -/
structure AnomalyDetectionResponse where
  anomalies : List AnomalyAlert
  total_analyzed : ℕ
  detection_confidence : Fad
  parameters : AnomalyDetectionRequest
  generated_at : String
deriving DecidableEq, Repr

/-- `BenchmarkService._get_historical_data`: the source returns `[]`
unconditionally ("Simplified - in real implementation, would query
historical data"). -/
def get_historical_data (_country : String) (_m : MetricType) (_years : ℕ) :
    List ℚ := []

/-- `BenchmarkService._detect_metric_anomalies`: the source returns `[]`
unconditionally; in particular the `sensitivity` argument is dead. -/
def detect_metric_anomalies (_country : String) (_m : MetricType)
    (_hist : List ℚ) (_sensitivity : ℚ) : List AnomalyAlert := []

/-- `BenchmarkService._calculate_detection_confidence`. -/
def calculate_detection_confidence (_anomalies : List AnomalyAlert)
    (total : ℕ) : Fad :=
  if total = 0 then Fad.fin 0
  else Fad.pyMin (Fad.fin ((total : ℚ) / 100)) (Fad.fin 1)

/-- `BenchmarkService.detect_anomalies` (the request path): iterates the
requested or available countries and metrics, fetches the historical data
through the placeholder `_get_historical_data` (always empty) and the
per-metric detector `_detect_metric_anomalies` (always empty), so the
response never carries an anomaly whatever the sensitivity. -/
def detect_anomalies (avail : List String) (req : AnomalyDetectionRequest)
    (now : String) : AnomalyDetectionResponse :=
  let countries := match req.country with
    | some c => [c]
    | none => avail
  let metrics := match req.metric with
    | some m => [m]
    | none => [MetricType.life_expectancy, MetricType.doctor_density,
               MetricType.nurse_density, MetricType.health_spending]
  let pairs := countries.flatMap fun c => metrics.map fun m => (c, m)
  let present := pairs.filter fun p => !(get_historical_data p.1 p.2 req.timeframe).isEmpty
  let total := (present.map fun p => (get_historical_data p.1 p.2 req.timeframe).length).sum
  let anomalies := present.flatMap fun p =>
    detect_metric_anomalies p.1 p.2 (get_historical_data p.1 p.2 req.timeframe)
      req.sensitivity
  { anomalies := anomalies
    total_analyzed := total
    detection_confidence := calculate_detection_confidence anomalies total
    parameters := req
    generated_at := now }

/-- The `PeerGroup` pydantic model (`average` is a string-keyed dict of
metric means, modelled as an association list in insertion order). -/
structure PeerGroup where
  name : String
  countries : List String
  criteria : List String
  average : List (String × ℚ)
  size : ℕ
deriving DecidableEq, Repr

/-- The `PeerGroupRequest` pydantic model. -/
structure PeerGroupRequest where
  country : String
  criteria : List String
  max_peers : ℕ
  similarity_threshold : ℚ
deriving DecidableEq, Repr

/-- The `PeerGroupResponse` pydantic model (`generated_at` has
`default_factory=datetime.now`, modelled as the explicit `now` argument of
the constructor site). -/
structure PeerGroupResponse where
  target_country : String
  peer_groups : List PeerGroup
  best_match : Option PeerGroup
  similarity_scores : List (String × ℚ)
  generated_at : String
deriving DecidableEq, Repr

/-- `BenchmarkService._calculate_country_similarity`: mean of the
normalised life-expectancy and government-spending similarities (each only
when both values are positive); the `criteria` argument is not consulted by
the source.  `data.get(key, 0)` is `(d key).getD 0`. -/
def calculate_country_similarity (d1 d2 : String → Option ℚ)
    (_criteria : List String) : ℚ :=
  let le1 := (d1 "life_expectancy").getD 0
  let le2 := (d2 "life_expectancy").getD 0
  let sp1 := (d1 "government_spending").getD 0
  let sp2 := (d2 "government_spending").getD 0
  let sims : List ℚ :=
    (if 0 < le1 ∧ 0 < le2 then [1 - |le1 - le2| / max le1 le2] else []) ++
    (if 0 < sp1 ∧ 0 < sp2 then [1 - |sp1 - sp2| / max sp1 sp2] else [])
  if sims.isEmpty then 0 else meanQ sims

/-- `BenchmarkService._calculate_similarity_scores`: one score per country
of the list (skipping the target and countries without 2022 data), in
iteration order; the country data port (`get_country_data(country, 2022)`)
is the `gcd` parameter, `none` standing for missing/empty data.  A missing
target yields no scores.  Python dict insertion order over a possibly
repeated country list is the order of first insertions with later
assignments overwriting (the value depends only on the country), hence
`eraseDups` before the loop. -/
def calculate_similarity_scores (gcd : String → Option (String → Option ℚ))
    (target : String) (allCountries : List String) (criteria : List String) :
    List (String × ℚ) :=
  match gcd target with
  | none => []
  | some td =>
      allCountries.eraseDups.filterMap fun c =>
        if c == target then none
        else match gcd c with
          | none => none
          | some d => some (c, calculate_country_similarity td d criteria)

/-- `BenchmarkService._calculate_group_averages`: for each of the four data
keys, the mean of the values present in the group (key skipped when no
member has it). -/
def calculate_group_averages (groupData : List (String → Option ℚ)) :
    List (String × ℚ) :=
  ["life_expectancy", "doctor_density", "nurse_density",
   "government_spending"].filterMap fun metric =>
    let values := groupData.filterMap fun d => d metric
    if values.isEmpty then none else some (metric, meanQ values)

/-- `BenchmarkService._create_peer_group`. -/
def create_peer_group (gcd : String → Option (String → Option ℚ))
    (name : String) (countries : List String) (criteria : List String) :
    PeerGroup :=
  { name := name
    countries := countries
    criteria := criteria
    average := calculate_group_averages (countries.filterMap gcd)
    size := countries.length }

/-- `BenchmarkService._create_criteria_groups`: the source returns `[]`
unconditionally ("Simplified - in real implementation, would create more
sophisticated groups"). -/
def create_criteria_groups (_target : String) (_peers : List String)
    (_criteria : List String) : List PeerGroup := []

/-- `BenchmarkService.find_peer_groups`: score all available countries,
keep those at or above the similarity threshold (and distinct from the
target), sort by score descending (Python's stable `sorted`), truncate to
`max_peers`, and build the main peer group (plus the empty criteria
groups) when any peer qualifies; `best_match` is the first group if any. -/
def find_peer_groups (gcd : String → Option (String → Option ℚ))
    (avail : List String) (req : PeerGroupRequest) (now : String) :
    PeerGroupResponse :=
  let similarity_scores := calculate_similarity_scores gcd req.country avail req.criteria
  let qualified := similarity_scores.filter fun p =>
    decide (req.similarity_threshold ≤ p.2) && !(p.1 == req.country)
  let sorted_peers := stableSortBy (fun a b : String × ℚ => decide (b.2 < a.2)) qualified
  let top_peers := (sorted_peers.take req.max_peers).map Prod.fst
  let peer_groups :=
    if top_peers.isEmpty then []
    else create_peer_group gcd ("Similar to " ++ req.country)
        (req.country :: top_peers) req.criteria ::
      create_criteria_groups req.country top_peers req.criteria
  { target_country := req.country
    peer_groups := peer_groups
    best_match := peer_groups.head?
    similarity_scores := similarity_scores
    generated_at := now }

/-! ## Specification-side formulas and result extractors -/

/-- The ordinary least-squares slope as the specification states it:
`sum (x-mean x)(y-mean y) / sum (x-mean x)^2`. -/
def specSlope (xs ys : List ℚ) : ℚ :=
  sumQ ((xs.zip ys).map fun p => (p.1 - meanQ xs) * (p.2 - meanQ ys)) /
    sumQ (xs.map fun a => (a - meanQ xs) ^ 2)

/-- The ordinary least-squares intercept: `mean y - slope * mean x`. -/
def specIntercept (xs ys : List ℚ) : ℚ := meanQ ys - specSlope xs ys * meanQ xs

/-- The Pearson r as scipy guards and clips it, stated on the biased
covariances (the spec's `r`); compared against the `rvalue` the embedded
`linregress` computes. -/
def specPearson (E : Ext) (xs ys : List ℚ) : Fad :=
  let ssxm := ssxmOf xs
  let ssym := ssxmOf ys
  let ssxym := ssxymOf xs ys
  if ssxm = 0 ∨ ssym = 0 then Fad.fin 0
  else
    let r0 := Fad.div (Fad.fin ssxym) (fadSqrt E (Fad.fin (ssxm * ssym)))
    if Fad.ltB (Fad.fin 1) r0 then Fad.fin 1
    else if Fad.ltB r0 (Fad.fin (-1)) then Fad.fin (-1) else r0

/-- The in-sample residual standard error the spec's prediction-interval
formula uses: the square root of the mean squared residual of the OLS
fit. -/
def specResidualSE (E : Ext) (xs ys : List ℚ) : ℚ :=
  E.sqrtQ (meanQ ((xs.zip ys).map fun p =>
    (p.2 - (specSlope xs ys * p.1 + specIntercept xs ys)) ^ 2))

/-- The spec's prediction-interval margin
`t_((1+cl)/2, n-2) * se * sqrt(1 + 1/n)`. -/
def specMargin (E : Ext) (xs ys : List ℚ) (cl : ℚ) : Fad :=
  Fad.mul (Fad.mul (E.tppf ((1 + cl) / 2) ((xs.length : ℤ) - 2))
    (Fad.fin (specResidualSE E xs ys)))
    (fadSqrt E (Fad.fin (1 + 1 / (xs.length : ℚ))))

/-- Direction field of a trend outcome; `""` on the error outcome. -/
def trendDirectionOf : Except String TrendResult → String
  | .ok r => r.trend_direction
  | .error _ => ""

/-- Strength field of a trend outcome; NaN on the error outcome. -/
def trendStrengthOf : Except String TrendResult → Fad
  | .ok r => r.trend_strength
  | .error _ => Fad.nan

/-- Change-percentage field of a trend outcome; NaN on the error outcome. -/
def trendChangePctOf : Except String TrendResult → Fad
  | .ok r => r.change_percentage
  | .error _ => Fad.nan

/-- Correlation-matrix cell of a correlations outcome.  The defaults (1.0
out of range or on the error outcome, which returns no matrix at all) are
chosen so that statements about cells are about the success path. -/
def corrMatrixAt (res : Except String CorrelationsResult) (i j : ℕ) : Fad :=
  match res with
  | .ok r => (r.matrix.getD i []).getD j (Fad.fin 1)
  | .error _ => Fad.fin 1

/-- Significance-matrix cell of a correlations outcome (default 0.0,
matching the diagonal). -/
def sigMatrixAt (res : Except String CorrelationsResult) (i j : ℕ) : Fad :=
  match res with
  | .ok r => (r.significance_matrix.getD i []).getD j (Fad.fin 0)
  | .error _ => Fad.fin 0

/-- Forecast list of a forecast outcome; `[]` on the error outcome. -/
def forecastDataOf : Except String ForecastResult → List ForecastPoint
  | .ok r => r.forecast_data
  | .error _ => []

/-- Timestamp field of a significance-test outcome. -/
def sigGenAt : Except String SigTestResult → String
  | .ok r => r.generated_at
  | .error _ => ""

/-- t-statistic of a significance-test outcome (0.0 on the error outcome,
so "field is NaN" genuinely asserts the success path). -/
def sigTOf : Except String SigTestResult → Fad
  | .ok r => r.t_statistic
  | .error _ => Fad.fin 0

/-- p-value of a significance-test outcome (0.0 on the error outcome). -/
def sigPOf : Except String SigTestResult → Fad
  | .ok r => r.p_value
  | .error _ => Fad.fin 0

/-- Cohen's d of a significance-test outcome (0.0 on the error outcome). -/
def sigDOf : Except String SigTestResult → Fad
  | .ok r => r.cohens_d
  | .error _ => Fad.fin 0

/-- A correlations outcome with its wall-clock field cleared. -/
def corrNoTime (res : Except String CorrelationsResult) :
    Except String CorrelationsResult :=
  res.map fun r => { r with generated_at := "" }

/-- A forecast outcome with its wall-clock field cleared. -/
def forecastNoTime (res : Except String ForecastResult) :
    Except String ForecastResult :=
  res.map fun r => { r with generated_at := "" }

/-- A significance-test outcome with its wall-clock field cleared. -/
def sigNoTime (res : Except String SigTestResult) : Except String SigTestResult :=
  res.map fun r => { r with generated_at := "" }

/-- A regression outcome with its wall-clock field cleared. -/
def regNoTime (res : Except String RegressionResult) :
    Except String RegressionResult :=
  res.map fun r => { r with generated_at := "" }

/-- An anomaly alert with its wall-clock field cleared. -/
def alertNoTime (a : AnomalyAlert) : AnomalyAlert := { a with detected_at := "" }

/-- An anomaly-detection response with its wall-clock field cleared. -/
def anomalyRespNoTime (r : AnomalyDetectionResponse) : AnomalyDetectionResponse :=
  { r with generated_at := "" }

/-- A peer-group response with its wall-clock field cleared. -/
def peerNoTime (r : PeerGroupResponse) : PeerGroupResponse :=
  { r with generated_at := "" }

/-! ## Concrete fixtures used by closed statements -/

/-- A one-column country data cell. -/
def oneCell (col : String) (v : ℚ) : String → Option ℚ :=
  fun s => if s = col then some v else none

/-- A table with a single observation: indicator `le`, country `P`,
year 2020, value 81. -/
def tblTrend1 : Table :=
  { cols := ["le"], rows := [ { year := 2020, country := "P", cell := oneCell "le" 81 } ] }

/-- Indicator `le` for country `P`: (2020, 1), (2021, 2), (2022, 3). -/
def tblTrend3 : Table :=
  { cols := ["le"]
    rows := [ { year := 2020, country := "P", cell := oneCell "le" 1 },
              { year := 2021, country := "P", cell := oneCell "le" 2 },
              { year := 2022, country := "P", cell := oneCell "le" 3 } ] }

/-- Indicator `le`, one observation each for countries `P` and `Q` in the
same year. -/
def tblSig : Table :=
  { cols := ["le"]
    rows := [ { year := 2020, country := "P", cell := oneCell "le" 1 },
              { year := 2020, country := "Q", cell := oneCell "le" 2 } ] }

/-- Indicators `a` and `b` whose series never share a (year, country) key:
the join of `a` and `b` is empty while both series are nonempty. -/
def tblCorr : Table :=
  { cols := ["a", "b"]
    rows := [ { year := 2000, country := "P", cell := oneCell "a" 1 },
              { year := 2001, country := "Q", cell := oneCell "b" 2 } ] }

/-- Two indicators observed twice for the same country: the regression
join has 2 rows for 1 predictor, so n = 2 = (#predictors + 1). -/
def tblReg : Table :=
  { cols := ["life_expectancy", "doctor_density"]
    rows := [ { year := 2020, country := "P",
                cell := fun s => if s = "life_expectancy" then some 81
                  else if s = "doctor_density" then some 2 else none },
              { year := 2021, country := "P",
                cell := fun s => if s = "life_expectancy" then some 82
                  else if s = "doctor_density" then some 3 else none } ] }

/-- Default element for indexed access into ranking lists. -/
def rankDefault : String × HealthMetric :=
  ("", { name := "", value := 0, unit := "", rank := 0, percentile := 0,
         trend := "", anomaly := false, baseline_year := 0 })

/-! ## Supporting lemmas -/

theorem length_insertBy (lt : α → α → Bool) (x : α) (l : List α) :
    (insertBy lt x l).length = l.length + 1 := by
  induction l with
  | nil => rfl
  | cons y ys ih =>
      simp only [insertBy]
      split
      · simp
      · simp [ih]

theorem length_stableSortBy (lt : α → α → Bool) (l : List α) :
    (stableSortBy lt l).length = l.length := by
  suffices h : ∀ acc : List α,
      (l.foldl (fun acc x => insertBy lt x acc) acc).length = l.length + acc.length by
    simpa using h []
  induction l with
  | nil => intro acc; simp
  | cons y ys ih =>
      intro acc
      simp only [List.foldl_cons, ih, length_insertBy, List.length_cons]
      omega

theorem mem_insertBy (lt : α → α → Bool) (x a : α) (l : List α) :
    a ∈ insertBy lt x l ↔ a = x ∨ a ∈ l := by
  induction l with
  | nil => simp [insertBy]
  | cons y ys ih =>
      simp only [insertBy]
      split
      · simp only [List.mem_cons]
      · simp only [List.mem_cons, ih]
        tauto

theorem pairwise_insertBy {lt : α → α → Bool}
    (hasym : ∀ a b, lt a b = true → lt b a = false)
    (htrans : ∀ a b c, lt a b = true → lt b c = true → lt a c = true)
    (x : α) {l : List α} (h : l.Pairwise fun a b => lt b a = false) :
    (insertBy lt x l).Pairwise fun a b => lt b a = false := by
  induction l with
  | nil => simp [insertBy]
  | cons y ys ih =>
      rcases List.pairwise_cons.mp h with ⟨hy, hys⟩
      simp only [insertBy]
      split
      · rename_i hlt
        refine List.pairwise_cons.mpr ⟨?_, h⟩
        intro z hz
        rcases List.mem_cons.mp hz with rfl | hzys
        · exact hasym _ _ hlt
        · by_contra hzx
          have hzx' : lt z x = true := by
            cases hb : lt z x
            · exact absurd hb hzx
            · rfl
          have : lt z y = true := htrans _ _ _ hzx' hlt
          rw [hy z hzys] at this
          exact Bool.false_ne_true this
      · rename_i hnlt
        refine List.pairwise_cons.mpr ⟨?_, ih hys⟩
        intro z hz
        rcases (mem_insertBy lt x z ys).mp hz with rfl | hzys
        · cases hb : lt z y
          · rfl
          · exact absurd hb (by simpa using hnlt)
        · exact hy z hzys

theorem pairwise_stableSortBy {lt : α → α → Bool}
    (hasym : ∀ a b, lt a b = true → lt b a = false)
    (htrans : ∀ a b c, lt a b = true → lt b c = true → lt a c = true)
    (l : List α) :
    (stableSortBy lt l).Pairwise fun a b => lt b a = false := by
  suffices h : ∀ acc : List α, (acc.Pairwise fun a b => lt b a = false) →
      (l.foldl (fun acc x => insertBy lt x acc) acc).Pairwise
        fun a b => lt b a = false by
    exact h [] (by simp)
  induction l with
  | nil => intro acc hacc; simpa using hacc
  | cons y ys ih =>
      intro acc hacc
      exact ih _ (pairwise_insertBy hasym htrans y hacc)

theorem fad_div_zero_zero : Fad.div (Fad.fin 0) (Fad.fin 0) = Fad.nan := rfl

theorem fad_mul_nan_left (x : Fad) : Fad.mul Fad.nan x = Fad.nan := by
  cases x <;> rfl

theorem fad_mul_nan_right (x : Fad) : Fad.mul x Fad.nan = Fad.nan := by
  cases x <;> rfl

theorem fad_add_nan_left (x : Fad) : Fad.add Fad.nan x = Fad.nan := by
  cases x <;> rfl

theorem fad_add_nan_right (x : Fad) : Fad.add x Fad.nan = Fad.nan := by
  cases x <;> rfl

theorem fad_div_nan_left (x : Fad) : Fad.div Fad.nan x = Fad.nan := by
  cases x <;> rfl

theorem fad_div_nan_right (x : Fad) : Fad.div x Fad.nan = Fad.nan := by
  cases x <;> rfl

theorem fad_sqrt_nan (E : Ext) : fadSqrt E Fad.nan = Fad.nan := rfl

theorem fad_abs_nan : Fad.abs Fad.nan = Fad.nan := rfl

theorem fad_ltB_nan_left (x : Fad) : Fad.ltB Fad.nan x = false := by
  cases x <;> rfl

theorem fad_ltB_nan_right (x : Fad) : Fad.ltB x Fad.nan = false := by
  cases x <;> rfl

theorem fad_ltB_fin_fin (a b : ℚ) : Fad.ltB (Fad.fin a) (Fad.fin b) = decide (a < b) :=
  rfl

theorem fad_mul_fin_fin (a b : ℚ) : Fad.mul (Fad.fin a) (Fad.fin b) = Fad.fin (a * b) :=
  rfl

theorem fad_add_fin_fin (a b : ℚ) : Fad.add (Fad.fin a) (Fad.fin b) = Fad.fin (a + b) :=
  rfl

theorem fad_sub_fin_fin (a b : ℚ) : Fad.sub (Fad.fin a) (Fad.fin b) = Fad.fin (a - b) := by
  simp [Fad.sub, Fad.add, Fad.neg, sub_eq_add_neg]

theorem fad_div_fin_fin (a b : ℚ) (hb : b ≠ 0) :
    Fad.div (Fad.fin a) (Fad.fin b) = Fad.fin (a / b) := by
  simp [Fad.div, hb]

theorem fad_ltB_mono (q q' : ℚ) (h : q' ≤ q) (x : Fad) :
    Fad.ltB (Fad.fin q) x = true → Fad.ltB (Fad.fin q') x = true := by
  cases x with
  | fin b =>
      simp only [fad_ltB_fin_fin, decide_eq_true_eq]
      intro hb
      exact lt_of_le_of_lt h hb
  | pinf => intro; rfl
  | ninf => intro hb; exact absurd hb (by simp [Fad.ltB])
  | nan => intro hb; exact absurd hb (by simp [Fad.ltB])

theorem metricValueStr_inj (m m' : MetricType)
    (h : metricValueStr m = metricValueStr m') : m = m' := by
  cases m <;> cases m' <;> first | rfl | exact absurd h (by decide)

/-! ## Theorems settling the claims -/

/-- C4: in every per-indicator ranking, the output is ordered by descending
value (rank 1 = highest), the country at position k (0-based) receives rank
k+1 and percentile `(N - (k+1) + 1) / N * 100`; and on the concrete input
`[PRT: 81, ESP: 83]` for life expectancy, ESP gets rank 1 / percentile 100
and PRT gets rank 2 / percentile 50. -/
theorem claim_C4_ranking_percentile (m : MetricType) (year : ℤ)
    (values : List (String × ℚ)) (hd : (values.map Prod.snd).Nodup)
    (k : ℕ) (hk : k < values.length) :
    ((rank_metric m year values).getD k rankDefault).2.rank = k + 1 ∧
    ((rank_metric m year values).getD k rankDefault).2.percentile =
      ((values.length : ℚ) - (k + 1) + 1) / (values.length : ℚ) * 100 ∧
    (rank_metric m year values).Pairwise (fun a b => b.2.value ≤ a.2.value) ∧
    rank_metric .life_expectancy 2022 [("PRT", 81), ("ESP", 83)] =
      [("ESP", { name := "life_expectancy", value := 83, unit := "years", rank := 1,
                 percentile := 100, trend := "stable", anomaly := false,
                 baseline_year := 2022 }),
       ("PRT", { name := "life_expectancy", value := 81, unit := "years", rank := 2,
                 percentile := 50, trend := "stable", anomaly := false,
                 baseline_year := 2022 })] := by
  have hlen : (stableSortBy (fun a b : String × ℚ => decide (b.2 < a.2)) values).length
      = values.length := length_stableSortBy _ _
  have hk' : k < (stableSortBy (fun a b : String × ℚ => decide (b.2 < a.2)) values).enum.length := by
    simpa [List.enum_length, hlen] using hk
  have hout : ∀ d, (rank_metric m year values).getD k d =
      ((fun p : ℕ × (String × ℚ) =>
        (p.2.1,
         ({ name := metricValueStr m
            value := p.2.2
            unit := get_metric_unit m
            rank := p.1 + 1
            percentile := (((stableSortBy (fun a b : String × ℚ => decide (b.2 < a.2)) values).length : ℚ) - (p.1 + 1) + 1) /
              ((stableSortBy (fun a b : String × ℚ => decide (b.2 < a.2)) values).length : ℚ) * 100
            trend := calculate_trend p.2.1 m
            anomaly := false
            baseline_year := year } : HealthMetric)))
        ((k, (stableSortBy (fun a b : String × ℚ => decide (b.2 < a.2)) values).getD k ("", 0)))) := by
    intro d
    rw [rank_metric]
    rw [List.getD_eq_getElem _ d (by simpa [List.enum_length, hlen] using hk)]
    rw [List.getElem_map, List.getElem_enum]
    rw [List.getD_eq_getElem _ _ (by simpa [hlen] using hk)]
  refine ⟨?_, ?_, ?_, ?_⟩
  · rw [hout rankDefault]
  · rw [hout rankDefault]
    simp [hlen]
  · have hasym : ∀ a b : String × ℚ, decide (b.2 < a.2) = true →
        decide (a.2 < b.2) = false := by
      intro a b h
      simp only [decide_eq_true_eq] at h
      simpa using lt_asymm h
    have htrans : ∀ a b c : String × ℚ, decide (b.2 < a.2) = true →
        decide (c.2 < b.2) = true → decide (c.2 < a.2) = true := by
      intro a b c h1 h2
      simp only [decide_eq_true_eq] at h1 h2 ⊢
      exact lt_trans h2 h1
    have hs := @pairwise_stableSortBy _ (fun a b : String × ℚ => decide (b.2 < a.2)) hasym htrans values
    have hs' : (stableSortBy (fun a b : String × ℚ => decide (b.2 < a.2)) values).Pairwise
        (fun a b => b.2 ≤ a.2) := by
      refine hs.imp ?_
      intro a b h
      simpa [decide_eq_false_iff_not] using h
    have hmap : (stableSortBy (fun a b : String × ℚ => decide (b.2 < a.2)) values).enum.map Prod.snd
        = stableSortBy (fun a b : String × ℚ => decide (b.2 < a.2)) values :=
      List.enum_map_snd _
    rw [← hmap] at hs'
    have henum : (stableSortBy (fun a b : String × ℚ => decide (b.2 < a.2)) values).enum.Pairwise
        (fun p q : ℕ × (String × ℚ) => q.2.2 ≤ p.2.2) := List.pairwise_map.mp hs'
    rw [rank_metric]
    exact List.Pairwise.map _ (fun p q h => h) henum
  · norm_num [rank_metric, stableSortBy, insertBy, List.foldl, metricValueStr,
      get_metric_unit, calculate_trend, List.enum, List.enumFrom]

/-- Witness for C4 at the spec's Example 4 input. -/
theorem claim_C4_ranking_percentile_witness :
    (([("PRT", (81 : ℚ)), ("ESP", 83)].map Prod.snd).Nodup ∧
      0 < [("PRT", (81 : ℚ)), ("ESP", 83)].length) ∧
    ((rank_metric .life_expectancy 2022 [("PRT", 81), ("ESP", 83)]).getD 0
      rankDefault).2.rank = 0 + 1 :=
  ⟨⟨by decide, by decide⟩,
   (claim_C4_ranking_percentile .life_expectancy 2022 [("PRT", 81), ("ESP", 83)]
     (by decide) 0 (by decide)).1⟩

/-- C8: whenever the (year, country)-join of two indicator series has fewer
than 2 points - because either series is empty, the join is empty, or the
join is a single point (where `pearsonr` raises and the enclosing handler
answers) - the pair computation returns the degenerate but valid
(0.0, 1.0) instead of an error. -/
theorem claim_C8_degenerate_pair (E : Ext) (st : Option Table) (a b : String)
    (tp : Option (ℤ × ℤ))
    (h : (joinPairs (get_indicator_data st a none tp)
      (get_indicator_data st b none tp)).length < 2) :
    calculate_indicator_correlation E st a b tp = (Fad.fin 0, Fad.fin 1) := by
  simp only [calculate_indicator_correlation]
  by_cases h1 : (get_indicator_data st a none tp).isEmpty ∨
      (get_indicator_data st b none tp).isEmpty
  · rw [if_pos h1]
  · rw [if_neg h1]
    by_cases h2 : (joinPairs (get_indicator_data st a none tp)
        (get_indicator_data st b none tp)).isEmpty
    · rw [if_pos h2]
    · rw [if_neg h2]
      rw [pearsonE, if_pos h]

/-- Witness for C8: two nonempty series that never share a (year, country)
key. -/
theorem claim_C8_degenerate_pair_witness :
    (joinPairs (get_indicator_data (some tblCorr) "a" none none)
      (get_indicator_data (some tblCorr) "b" none none)).length < 2 ∧
    calculate_indicator_correlation extRef (some tblCorr) "a" "b" none =
      (Fad.fin 0, Fad.fin 1) :=
  ⟨by decide, claim_C8_degenerate_pair extRef (some tblCorr) "a" "b" none (by decide)⟩

/-- C10: when both countries' series hold exactly one observation, the
significance test is NOT rejected as insufficient data: it returns a
result whose t-statistic, p-value and Cohen's d are all NaN, because the
`ddof=1` variances are the IEEE quotients 0/0 and the pooled denominator
`n1 + n2 - 2` is zero.  The only contract required of the external Student
tail function is that it propagates NaN at zero degrees of freedom. -/
theorem claim_C10_singleton_nan (E : Ext) (st : Option Table)
    (ind c1 c2 : String) (tp : Option (ℤ × ℤ)) (now : String) (e1 e2 : Entry)
    (h1 : get_indicator_data st ind (some c1) tp = [e1])
    (h2 : get_indicator_data st ind (some c2) tp = [e2])
    (htsf : E.tsf Fad.nan 0 = Fad.nan) :
    (statistical_significance_test E st ind c1 c2 tp now).isOk = true ∧
    sigTOf (statistical_significance_test E st ind c1 c2 tp now) = Fad.nan ∧
    sigPOf (statistical_significance_test E st ind c1 c2 tp now) = Fad.nan ∧
    sigDOf (statistical_significance_test E st ind c1 c2 tp now) = Fad.nan := by
  have hvar : varSamp [e1.value] = Fad.nan := by
    simp [varSamp, sumQ, meanQ, fad_div_zero_zero]
  have hvar2 : varSamp [e2.value] = Fad.nan := by
    simp [varSamp, sumQ, meanQ, fad_div_zero_zero]
  have hpool : pooledVar [e1.value] [e2.value] = Fad.nan := by
    simp only [hvar, hvar2, pooledVar, List.length_singleton]
    norm_num [fad_mul_nan_right, fad_add_nan_right, fad_div_nan_left]
  have hdf : ((1 : ℕ) : ℤ) + ((1 : ℕ) : ℤ) - 2 = 0 := by norm_num
  have httest : ttestInd E [e1.value] [e2.value] = (Fad.nan, Fad.nan) := by
    simp only [ttestInd, hpool, List.length_singleton, hdf,
      fad_mul_nan_left, fad_sqrt_nan, fad_div_nan_right, fad_abs_nan, htsf,
      fad_mul_nan_right]
  simp only [statistical_significance_test, h1, h2]
  norm_num [sigTOf, sigPOf, sigDOf, httest, hpool, fad_sqrt_nan, fad_div_nan_right]
  rfl

/-- Witness for C10: one observation per country. -/
theorem claim_C10_singleton_nan_witness :
    (get_indicator_data (some tblSig) "le" (some "P") none =
        [{ year := 2020, country := "P", value := 1 }] ∧
      get_indicator_data (some tblSig) "le" (some "Q") none =
        [{ year := 2020, country := "Q", value := 2 }] ∧
      extRef.tsf Fad.nan 0 = Fad.nan) ∧
    sigTOf (statistical_significance_test extRef (some tblSig) "le" "P" "Q" none "T") =
      Fad.nan :=
  ⟨⟨by decide, by decide, rfl⟩,
   (claim_C10_singleton_nan extRef (some tblSig) "le" "P" "Q" none "T"
     { year := 2020, country := "P", value := 1 }
     { year := 2020, country := "Q", value := 2 }
     (by decide) (by decide) rfl).2.1⟩

theorem trend_single_point (E : Ext) (st : Option Table) (ind c : String)
    (tp : Option (ℤ × ℤ)) (e : Entry)
    (h : get_indicator_data st ind (some c) tp = [e]) :
    (perform_trend_analysis E st ind c tp).isOk = true ∧
    trendDirectionOf (perform_trend_analysis E st ind c tp) = "stable" ∧
    trendStrengthOf (perform_trend_analysis E st ind c tp) = Fad.fin 0 := by
  have hok : ∃ r, perform_trend_analysis E st ind c tp = .ok r ∧
      r.trend_direction = "stable" ∧ r.trend_strength = Fad.fin 0 := by
    simp only [perform_trend_analysis, h, List.map_cons, List.map_nil]
    rw [if_neg (by simp)]
    simp only [linregressE]
    rw [if_neg (by norm_num), if_neg (by simp), if_neg (by norm_num)]
    norm_num [meanQ, sumQ, ssxmOf, ssxymOf, fad_div_zero_zero, fad_ltB_nan_left,
      fad_ltB_nan_right, Fad.abs]
  obtain ⟨r, hr, h1, h2⟩ := hok
  rw [hr]
  exact ⟨rfl, by simp [trendDirectionOf, h1], by simp [trendStrengthOf, h2]⟩

/-- C2 (amended): an EMPTY resulting series is rejected with the typed `No
data available` error, and two or more observations on a single year are
rejected through the caught `linregress` failure; but a 1-point series is
NOT rejected: `scipy.stats.linregress` raises for identical x only when
n > 1, so a single point yields NaN slope (0/0) and the operation returns a
normal result with direction "stable" and strength 0 instead of an
insufficient-data failure. -/
theorem claim_C2_min_points (E : Ext) (st : Option Table) (ind c : String)
    (tp : Option (ℤ × ℤ)) :
    (get_indicator_data st ind (some c) tp = [] →
      perform_trend_analysis E st ind c tp =
        .error "No data available for the specified parameters") ∧
    (∀ e, get_indicator_data st ind (some c) tp = [e] →
      (perform_trend_analysis E st ind c tp).isOk = true ∧
      trendDirectionOf (perform_trend_analysis E st ind c tp) = "stable" ∧
      trendStrengthOf (perform_trend_analysis E st ind c tp) = Fad.fin 0) ∧
    (2 ≤ (get_indicator_data st ind (some c) tp).length →
      allEqHead ((get_indicator_data st ind (some c) tp).map fun e =>
        ((e.year : ℤ) : ℚ)) →
      perform_trend_analysis E st ind c tp =
        .error
          "Trend analysis failed: Cannot calculate a linear regression if all x values are identical") := by
  refine ⟨?_, ?_, ?_⟩
  · intro h
    simp [perform_trend_analysis, h]
  · intro e h
    exact trend_single_point E st ind c tp e h
  · intro hlen hall
    have hne : ¬ (get_indicator_data st ind (some c) tp).isEmpty := by
      cases hg : get_indicator_data st ind (some c) tp with
      | nil => rw [hg] at hlen; simp at hlen
      | cons a l => simp
    rw [perform_trend_analysis]
    rw [if_neg hne]
    have hx : ((get_indicator_data st ind (some c) tp).map fun e =>
        ((e.year : ℤ) : ℚ)).length = (get_indicator_data st ind (some c) tp).length := by
      simp
    simp only [linregressE]
    rw [if_neg (by
      simp only [List.length_map]
      intro hcon
      rcases hcon with hcon | hcon <;> omega)]
    rw [if_pos (show allEqHead ((get_indicator_data st ind (some c) tp).map fun e =>
        ((e.year : ℤ) : ℚ)) ∧ 1 < ((get_indicator_data st ind (some c) tp).map fun e =>
        ((e.year : ℤ) : ℚ)).length from ⟨hall, by simp only [List.length_map]; omega⟩)]
    rfl

/-- Counterexample to C2 as stated: a series with exactly ONE point (fewer
than 2) is not answered with an insufficient-data failure - the operation
returns a success result labelled "stable". -/
theorem claim_C2_counterexample :
    (get_indicator_data (some tblTrend1) "le" (some "P") none).length = 1 ∧
    (perform_trend_analysis extRef (some tblTrend1) "le" "P" none).isOk = true ∧
    trendDirectionOf (perform_trend_analysis extRef (some tblTrend1) "le" "P" none) =
      "stable" :=
  ⟨by decide,
   (trend_single_point extRef (some tblTrend1) "le" "P" none
     { year := 2020, country := "P", value := 81 } (by decide)).1,
   (trend_single_point extRef (some tblTrend1) "le" "P" none
     { year := 2020, country := "P", value := 81 } (by decide)).2.1⟩

/-- Witness for C2 (amended) at the same 1-point table. -/
theorem claim_C2_min_points_witness :
    (get_indicator_data (some tblTrend1) "le" (some "P") none =
      [{ year := 2020, country := "P", value := 81 }]) ∧
    (perform_trend_analysis extRef (some tblTrend1) "le" "P" none).isOk = true :=
  ⟨by decide,
   ((claim_C2_min_points extRef (some tblTrend1) "le" "P" none).2.1
     { year := 2020, country := "P", value := 81 } (by decide)).1⟩

theorem list_sum_nonneg_all_zero {l : List ℚ} (h0 : ∀ x ∈ l, 0 ≤ x)
    (hs : l.sum = 0) : ∀ x ∈ l, x = 0 := by
  induction l with
  | nil => simp
  | cons a t ih =>
      have ha : 0 ≤ a := h0 a (by simp)
      have ht : ∀ x ∈ t, 0 ≤ x := fun x hx => h0 x (by simp [hx])
      have hts : 0 ≤ t.sum := List.sum_nonneg ht
      have hsum : a + t.sum = 0 := by simpa using hs
      have ha0 : a = 0 := by linarith
      intro x hx
      rcases List.mem_cons.mp hx with rfl | hxt
      · exact ha0
      · exact ih ht (by linarith) x hxt

theorem ssxm_ne_zero {xs : List ℚ} (hne : xs ≠ [])
    (hx : ¬ allEqHead xs) :
    ssxmOf xs ≠ 0 := by
  rw [ssxmOf]
  intro h0
  apply hx
  have hlen : ((xs.map fun a => (a - meanQ xs) ^ 2).length : ℚ) ≠ 0 := by
    simp only [List.length_map]
    exact_mod_cast fun hcon => hne (List.length_eq_zero.mp (by exact_mod_cast hcon))
  have hsum : (xs.map fun a => (a - meanQ xs) ^ 2).sum = 0 := by
    rw [meanQ, sumQ] at h0
    rcases div_eq_zero_iff.mp h0 with h | h
    · exact h
    · exact absurd h hlen
  have hall := list_sum_nonneg_all_zero
    (fun x hxm => by
      obtain ⟨a, _, rfl⟩ := List.mem_map.mp hxm
      positivity) hsum
  cases xs with
  | nil => exact absurd rfl hne
  | cons x t =>
      have hzero : ∀ a ∈ x :: t, a = meanQ (x :: t) := by
        intro a hmem
        have h2 := hall ((a - meanQ (x :: t)) ^ 2) (List.mem_map.mpr ⟨a, hmem, rfl⟩)
        have := pow_eq_zero_iff (n := 2) (by norm_num) |>.mp h2
        linarith [this]
      show allEqHead (x :: t)
      simp only [allEqHead]
      intro y hy
      exact (hzero y (by simp [hy])).trans (hzero x (by simp)).symm

theorem div_mean_ratio (a b n : ℚ) (hn : n ≠ 0) : a / n / (b / n) = a / b := by
  rcases eq_or_ne b 0 with rfl | hb
  · simp
  · field_simp

theorem linregressE_ok (E : Ext) (x y : List ℚ)
    (h1 : ¬ (x.length = 0 ∨ y.length = 0))
    (h2 : ¬ (allEqHead x ∧ 1 < x.length)) :
    ∃ lr, linregressE E x y = .ok lr ∧
      lr.slope = Fad.div (Fad.fin (ssxymOf x y)) (Fad.fin (ssxmOf x)) ∧
      lr.rvalue = specPearson E x y := by
  simp only [linregressE]
  rw [if_neg h1, if_neg h2]
  by_cases hn2 : x.length = 2
  · rw [if_pos hn2]
    exact ⟨_, rfl, rfl, rfl⟩
  · rw [if_neg hn2]
    exact ⟨_, rfl, rfl, rfl⟩

theorem ssxym_div_ssxm {xs ys : List ℚ} (hne : xs ≠ []) :
    ssxymOf xs ys / ssxmOf xs = specSlope xs ys := by
  have hlen : (xs.length : ℚ) ≠ 0 := by
    exact_mod_cast fun hcon => hne (List.length_eq_zero.mp (by exact_mod_cast hcon))
  have hx : ssxmOf xs = sumQ (xs.map fun a => (a - meanQ xs) ^ 2) / (xs.length : ℚ) := by
    rw [ssxmOf, meanQ, List.length_map]
  rw [ssxymOf, hx, specSlope]
  exact div_mean_ratio _ _ _ hlen

/-- C6: on a series of at least 2 points whose years are not all equal, the
trend result is a success whose direction is determined by the sign of the
OLS slope, whose strength is |r| for the (guarded, clipped) Pearson r, and
whose change percentage is `slope * (year_last - year_first) / value_first
* 100` when the first value is nonzero and exactly 0 (not an error) when it
is zero. -/
theorem claim_C6_trend_fields (E : Ext) (st : Option Table) (ind c : String)
    (tp : Option (ℤ × ℤ)) (xs ys : List ℚ)
    (hxs : xs = (get_indicator_data st ind (some c) tp).map fun e => ((e.year : ℤ) : ℚ))
    (hys : ys = (get_indicator_data st ind (some c) tp).map fun e => e.value)
    (hn : 2 ≤ (get_indicator_data st ind (some c) tp).length)
    (hax : ¬ allEqHead xs) :
    (perform_trend_analysis E st ind c tp).isOk = true ∧
    trendDirectionOf (perform_trend_analysis E st ind c tp) =
      (if 0 < specSlope xs ys then "increasing"
       else if specSlope xs ys < 0 then "decreasing" else "stable") ∧
    trendStrengthOf (perform_trend_analysis E st ind c tp) =
      Fad.abs (specPearson E xs ys) ∧
    trendChangePctOf (perform_trend_analysis E st ind c tp) =
      (if ys.headD 0 ≠ 0 then
        Fad.fin (specSlope xs ys * (xs.getLastD 0 - xs.headD 0) / ys.headD 0 * 100)
       else Fad.fin 0) := by
  subst hxs
  subst hys
  have hgne : get_indicator_data st ind (some c) tp ≠ [] := by
    intro hcon
    rw [hcon] at hn
    simp at hn
  have hne : ¬ (get_indicator_data st ind (some c) tp).isEmpty = true := by
    simpa [List.isEmpty_iff] using hgne
  have hxne : (get_indicator_data st ind (some c) tp).map
      (fun e => ((e.year : ℤ) : ℚ)) ≠ [] := by
    simpa using hgne
  have hssxm : ssxmOf ((get_indicator_data st ind (some c) tp).map
      fun e => ((e.year : ℤ) : ℚ)) ≠ 0 := ssxm_ne_zero hxne hax
  obtain ⟨lr, hlr, hsl, hrv⟩ := linregressE_ok E
    ((get_indicator_data st ind (some c) tp).map fun e => ((e.year : ℤ) : ℚ))
    ((get_indicator_data st ind (some c) tp).map fun e => e.value)
    (by
      simp only [List.length_map]
      intro hcon
      rcases hcon with hcon | hcon <;> omega)
    (by
      intro hcon
      exact hax hcon.1)
  have hslv : lr.slope = Fad.fin (specSlope
      ((get_indicator_data st ind (some c) tp).map fun e => ((e.year : ℤ) : ℚ))
      ((get_indicator_data st ind (some c) tp).map fun e => e.value)) := by
    rw [hsl, fad_div_fin_fin _ _ hssxm, ssxym_div_ssxm hxne]
  simp only [perform_trend_analysis]
  rw [if_neg hne, hlr]
  refine ⟨rfl, ?_, ?_, ?_⟩
  · dsimp only [trendDirectionOf]
    rw [hslv]
    rcases lt_trichotomy 0 (specSlope
        ((get_indicator_data st ind (some c) tp).map fun e => ((e.year : ℤ) : ℚ))
        ((get_indicator_data st ind (some c) tp).map fun e => e.value)) with h | h | h
    · simp [fad_ltB_fin_fin, h]
    · simp [fad_ltB_fin_fin, ← h]
    · simp [fad_ltB_fin_fin, h, asymm h, not_lt_of_lt h]
  · dsimp only [trendStrengthOf]
    rw [hrv]
  · dsimp only [trendChangePctOf]
    by_cases hv0 : ((get_indicator_data st ind (some c) tp).map
        fun e => e.value).headD 0 ≠ 0
    · rw [if_pos hv0, if_pos hv0, hslv, fad_mul_fin_fin,
        fad_div_fin_fin _ _ (by exact hv0), fad_mul_fin_fin]
    · rw [if_neg hv0, if_neg hv0]

/-- Witness for C6 on a 3-point strictly increasing series. -/
theorem claim_C6_trend_fields_witness :
    2 ≤ (get_indicator_data (some tblTrend3) "le" (some "P") none).length ∧
    (¬ allEqHead ((get_indicator_data (some tblTrend3) "le" (some "P") none).map
      fun e => ((e.year : ℤ) : ℚ))) ∧
    (perform_trend_analysis extRef (some tblTrend3) "le" "P" none).isOk = true :=
  ⟨by decide, by decide,
   (claim_C6_trend_fields extRef (some tblTrend3) "le" "P" none _ _ rfl rfl
     (by decide) (by decide)).1⟩

theorem linFit_eq_spec (xs ys : List ℚ) :
    linFit xs ys = (specSlope xs ys, specIntercept xs ys) := by
  rw [linFit, specIntercept, specSlope]
  by_cases hs : sumQ (xs.map fun a => (a - meanQ xs) ^ 2) = 0
  · rw [if_pos hs, hs]
    simp
  · rw [if_neg hs]

/-- C9: a history of fewer than 3 points fails with the insufficient-data
error; with n >= 3 the forecast succeeds and lists exactly the `h`
consecutive years immediately after the last observed year, each predicted
by the OLS fit and bracketed by `predicted ± t_((1+cl)/2, n-2) * se *
sqrt(1 + 1/n)` where `se` is the root mean squared residual of the fit. -/
theorem claim_C9_forecast_shape (E : Ext) (st : Option Table) (ind c : String)
    (h : ℕ) (cl : ℚ) (now : String) (xs ys : List ℚ)
    (hxs : xs = (get_indicator_data st ind (some c) none).map fun e => ((e.year : ℤ) : ℚ))
    (hys : ys = (get_indicator_data st ind (some c) none).map fun e => e.value) :
    ((get_indicator_data st ind (some c) none).length < 3 →
      generate_forecast E st ind c h cl now =
        .error "Insufficient historical data for forecasting") ∧
    (3 ≤ (get_indicator_data st ind (some c) none).length →
      (generate_forecast E st ind c h cl now).isOk = true ∧
      forecastDataOf (generate_forecast E st ind c h cl now) =
        (forecast_years_list
            ((get_indicator_data st ind (some c) none).getLastD ⟨0, "", 0⟩).year
            h).map fun y =>
          { year := y
            predicted_value := specSlope xs ys * (y : ℚ) + specIntercept xs ys
            ci_lower := Fad.sub
              (Fad.fin (specSlope xs ys * (y : ℚ) + specIntercept xs ys))
              (specMargin E xs ys cl)
            ci_upper := Fad.add
              (Fad.fin (specSlope xs ys * (y : ℚ) + specIntercept xs ys))
              (specMargin E xs ys cl) }) := by
  subst hxs
  subst hys
  constructor
  · intro hlt
    simp only [generate_forecast]
    rw [if_pos (Or.inr hlt)]
  · intro h3
    have hne : ¬ ((get_indicator_data st ind (some c) none).isEmpty = true ∨
        (get_indicator_data st ind (some c) none).length < 3) := by
      intro hcon
      rcases hcon with hcon | hcon
      · rw [List.isEmpty_iff] at hcon
        rw [hcon] at h3
        simp at h3
      · omega
    constructor
    · simp only [generate_forecast]
      rw [if_neg hne]
      rfl
    · simp only [generate_forecast]
      rw [if_neg hne]
      dsimp only [forecastDataOf]
      simp only [linFit_eq_spec, specMargin, specResidualSE, List.length_map,
        List.map_map, Function.comp_def]

/-- Witness for C9 on a 3-point history with horizon 2. -/
theorem claim_C9_forecast_shape_witness :
    3 ≤ (get_indicator_data (some tblTrend3) "le" (some "P") none).length ∧
    (generate_forecast extRef (some tblTrend3) "le" "P" 2 (95 / 100) "T").isOk = true :=
  ⟨by decide,
   ((claim_C9_forecast_shape extRef (some tblTrend3) "le" "P" 2 (95 / 100) "T" _ _
     rfl rfl).2 (by decide)).1⟩

/-- C5: a regression request whose joined table has n = 2 rows for 1
predictor (so n = #predictors + 1, inside the claim's premise) is NOT
rejected with the insufficient-data error before fitting.  Instead the
column selection `regression_data[target_indicator]` fails - after the
join every value column is a suffixed `value` name, never an indicator
name - and the caught `KeyError` surfaces as the generic
`Regression analysis failed: 'life_expectancy'` message.  The joined
columns are exactly `value_x`, `value_y`. -/
theorem claim_C5_no_sample_size_guard :
    (prepare_regression_data (some tblReg) "life_expectancy" ["doctor_density"]
      none none).rows.length = 2 ∧
    (prepare_regression_data (some tblReg) "life_expectancy" ["doctor_density"]
      none none).cols = ["value_x", "value_y"] ∧
    multi_variable_regression extRef (some tblReg) "life_expectancy"
      ["doctor_density"] none none "T" =
      .error "Regression analysis failed: 'life_expectancy'" ∧
    multi_variable_regression extRef (some tblReg) "life_expectancy"
      ["doctor_density"] none none "T" ≠
      .error "Insufficient data for regression analysis" := by
  have heq : multi_variable_regression extRef (some tblReg) "life_expectancy"
      ["doctor_density"] none none "T" =
      .error "Regression analysis failed: 'life_expectancy'" := rfl
  refine ⟨by decide, by decide, heq, ?_⟩
  intro hcon
  rw [heq] at hcon
  exact absurd (Except.error.inj hcon) (by decide)

theorem beq_symm_of_lawful {α : Type} [BEq α] [LawfulBEq α] (a b : α) :
    (a == b) = (b == a) := by
  cases hab : a == b
  · cases hba : b == a
    · rfl
    · exact absurd (eq_of_beq hba).symm (ne_of_beq_false hab)
  · rw [eq_of_beq hab]
    simp

theorem coe_map_filter_eq_bind {β γ : Type} (l : List β) (p : β → Bool)
    (g : β → γ) :
    (((l.filter p).map g : List γ) : Multiset γ) =
      (l : Multiset β).bind fun b => if p b then {g b} else 0 := by
  induction l with
  | nil => simp
  | cons b t ih =>
      by_cases hb : p b = true
      · rw [List.filter_cons, if_pos hb, List.map_cons, ← Multiset.cons_coe,
          ← Multiset.cons_coe, Multiset.cons_bind, if_pos hb, ih,
          ← Multiset.singleton_add]
      · rw [List.filter_cons, if_neg hb, ← Multiset.cons_coe, Multiset.cons_bind,
          if_neg hb, ih, zero_add]

theorem joinPairs_swap_perm (l1 l2 : List Entry) :
    ((joinPairs l1 l2).map Prod.swap).Perm (joinPairs l2 l1) := by
  rw [← Multiset.coe_eq_coe]
  have lhs_eq : (((joinPairs l1 l2).map Prod.swap : List (ℚ × ℚ)) : Multiset (ℚ × ℚ)) =
      (l1 : Multiset Entry).bind fun a => (l2 : Multiset Entry).bind fun b =>
        if a.year == b.year && a.country == b.country then {(b.value, a.value)} else 0 := by
    rw [joinPairs, List.map_flatMap, ← Multiset.coe_bind]
    refine Multiset.bind_congr ?_
    intro a _
    rw [List.map_map, coe_map_filter_eq_bind]
    refine Multiset.bind_congr ?_
    intro b _
    by_cases hb : (a.year == b.year && a.country == b.country) = true
    · simp [hb]
    · simp [hb]
  have rhs_eq : ((joinPairs l2 l1 : List (ℚ × ℚ)) : Multiset (ℚ × ℚ)) =
      (l2 : Multiset Entry).bind fun b => (l1 : Multiset Entry).bind fun a =>
        if b.year == a.year && b.country == a.country then {(b.value, a.value)} else 0 := by
    rw [joinPairs, ← Multiset.coe_bind]
    refine Multiset.bind_congr ?_
    intro b _
    rw [coe_map_filter_eq_bind]
  rw [lhs_eq, rhs_eq, Multiset.bind_bind]
  refine Multiset.bind_congr fun b _ => Multiset.bind_congr fun a _ => ?_
  rw [beq_symm_of_lawful a.year b.year, beq_symm_of_lawful a.country b.country]

theorem allEqHead_iff {l : List ℚ} :
    allEqHead l ↔ ∀ a ∈ l, ∀ b ∈ l, a = b := by
  cases l with
  | nil => simp [allEqHead]
  | cons x xs =>
      simp only [allEqHead]
      constructor
      · intro hall a ha b hb
        have hax : a = x := by
          rcases List.mem_cons.mp ha with rfl | ha'
          · rfl
          · exact hall a ha'
        have hbx : b = x := by
          rcases List.mem_cons.mp hb with rfl | hb'
          · rfl
          · exact hall b hb'
        rw [hax, hbx]
      · intro hp y hy
        exact hp y (List.mem_cons_of_mem x hy) x (List.mem_cons_self x xs)

theorem allEqHead_perm {l l' : List ℚ} (h : l.Perm l') :
    allEqHead l ↔ allEqHead l' := by
  rw [allEqHead_iff, allEqHead_iff]
  constructor
  · intro hp a ha b hb
    exact hp a (h.mem_iff.mpr ha) b (h.mem_iff.mpr hb)
  · intro hp a ha b hb
    exact hp a (h.mem_iff.mp ha) b (h.mem_iff.mp hb)

theorem sum_swap_transfer {ps qs : List (ℚ × ℚ)}
    (h : (ps.map Prod.swap).Perm qs) (g : ℚ → ℚ → ℚ) :
    (qs.map fun p => g p.1 p.2).sum = (ps.map fun p => g p.2 p.1).sum := by
  have hm := (h.map fun p => g p.1 p.2).sum_eq
  rw [← hm, List.map_map]
  rfl

theorem length_swap_transfer {ps qs : List (ℚ × ℚ)}
    (h : (ps.map Prod.swap).Perm qs) : qs.length = ps.length := by
  have := h.length_eq
  simpa using this.symm

theorem map_fst_perm {ps qs : List (ℚ × ℚ)} (h : (ps.map Prod.swap).Perm qs) :
    (qs.map Prod.fst).Perm (ps.map Prod.snd) := by
  have := (h.map Prod.fst).symm
  rw [List.map_map] at this
  exact this

theorem map_snd_perm {ps qs : List (ℚ × ℚ)} (h : (ps.map Prod.swap).Perm qs) :
    (qs.map Prod.snd).Perm (ps.map Prod.fst) := by
  have := (h.map Prod.snd).symm
  rw [List.map_map] at this
  exact this

theorem qSign_neg (x : ℚ) : qSign (-x) = -qSign x := by
  rcases lt_trichotomy x 0 with h | rfl | h
  · rw [qSign, qSign, if_pos (show (0 : ℚ) < -x by linarith),
      if_neg (show ¬ (0 : ℚ) < x by linarith), if_pos h]
    norm_num
  · norm_num [qSign]
  · rw [qSign, qSign, if_neg (show ¬ (0 : ℚ) < -x by linarith),
      if_pos (show -x < (0 : ℚ) by linarith), if_pos h]

theorem r0Of_swap (E : Ext) {ps qs : List (ℚ × ℚ)}
    (hperm : (ps.map Prod.swap).Perm qs) : r0Of E qs = r0Of E ps := by
  have hfst := map_fst_perm hperm
  have hsnd := map_snd_perm hperm
  have hmx : meanQ (qs.map Prod.fst) = meanQ (ps.map Prod.snd) := by
    rw [meanQ, meanQ, sumQ, sumQ, hfst.sum_eq, hfst.length_eq]
  have hmy : meanQ (qs.map Prod.snd) = meanQ (ps.map Prod.fst) := by
    rw [meanQ, meanQ, sumQ, sumQ, hsnd.sum_eq, hsnd.length_eq]
  simp only [r0Of]
  rw [hmx, hmy]
  set A := meanQ (ps.map Prod.fst) with hA
  set B := meanQ (ps.map Prod.snd) with hB
  have hS1 : sumQ ((qs.map Prod.fst).map fun a => (a - B) ^ 2)
      = sumQ ((ps.map Prod.snd).map fun a => (a - B) ^ 2) := by
    rw [sumQ, sumQ]; exact (hfst.map _).sum_eq
  have hS2 : sumQ ((qs.map Prod.snd).map fun b => (b - A) ^ 2)
      = sumQ ((ps.map Prod.fst).map fun b => (b - A) ^ 2) := by
    rw [sumQ, sumQ]; exact (hsnd.map _).sum_eq
  rw [hS1, hS2]
  set NX := E.sqrtQ (sumQ ((ps.map Prod.fst).map fun b => (b - A) ^ 2)) with hNX
  set NY := E.sqrtQ (sumQ ((ps.map Prod.snd).map fun a => (a - B) ^ 2)) with hNY
  rw [sumQ, sumQ, sum_swap_transfer hperm fun x y => ((x - B) / NY) * ((y - A) / NX)]
  have hcomm : (ps.map fun p => ((p.2 - B) / NY) * ((p.1 - A) / NX))
      = ps.map fun p => ((p.1 - A) / NX) * ((p.2 - B) / NY) :=
    List.map_congr_left fun p _ => mul_comm _ _
  rw [hcomm]

theorem pearsonE_swap (E : Ext) {ps qs : List (ℚ × ℚ)}
    (hperm : (ps.map Prod.swap).Perm qs) : pearsonE E qs = pearsonE E ps := by
  have hlen : qs.length = ps.length := length_swap_transfer hperm
  simp only [pearsonE, hlen]
  by_cases h2 : ps.length < 2
  · rw [if_pos h2, if_pos h2]
  · rw [if_neg h2, if_neg h2]
    by_cases hn2 : ps.length = 2
    · rw [if_pos hn2, if_pos hn2]
      obtain ⟨p0, p1, rfl⟩ : ∃ p0 p1, ps = [p0, p1] := by
        cases ps with
        | nil => simp at hn2
        | cons a t =>
          cases t with
          | nil => simp at hn2
          | cons b t2 =>
            cases t2 with
            | nil => exact ⟨a, b, rfl⟩
            | cons c t3 => simp only [List.length_cons] at hn2; omega
      have hq : qs.length = 2 := hlen.trans hn2
      obtain ⟨q0, q1, rfl⟩ : ∃ q0 q1, qs = [q0, q1] := by
        cases qs with
        | nil => simp at hq
        | cons a t =>
          cases t with
          | nil => simp at hq
          | cons b t2 =>
            cases t2 with
            | nil => exact ⟨a, b, rfl⟩
            | cons c t3 => simp only [List.length_cons] at hq; omega
      simp only [List.map_cons, List.map_nil] at hperm
      have hmem : q0 = p0.swap ∨ q0 = p1.swap := by
        have h0 : q0 ∈ [p0.swap, p1.swap] := hperm.mem_iff.mpr (by simp)
        simpa using h0
      rcases hmem with h0 | h0
      · subst h0
        have h1 : q1 = p1.swap := by
          have h := List.perm_singleton.mp hperm.cons_inv
          simpa using h.symm
        subst h1
        simp only [List.getLastD_cons, List.getLastD_nil, List.headD_cons,
          Prod.fst_swap, Prod.snd_swap]
        rw [mul_comm]
      · subst h0
        have h1 : q1 = p0.swap := by
          have h := List.perm_singleton.mp
            ((List.Perm.swap p0.swap p1.swap []).trans hperm).cons_inv
          simpa using h.symm
        subst h1
        simp only [List.getLastD_cons, List.getLastD_nil, List.headD_cons,
          Prod.fst_swap, Prod.snd_swap]
        have e1 : p0.2 - p1.2 = -(p1.2 - p0.2) := by ring
        have e2 : p0.1 - p1.1 = -(p1.1 - p0.1) := by ring
        rw [e1, e2, qSign_neg, qSign_neg, neg_mul_neg, mul_comm]
    · rw [if_neg hn2, if_neg hn2]
      have hfst := allEqHead_perm (map_fst_perm hperm)
      have hsnd := allEqHead_perm (map_snd_perm hperm)
      by_cases hc : allEqHead (ps.map Prod.fst) ∨ allEqHead (ps.map Prod.snd)
      · have hc' : allEqHead (qs.map Prod.fst) ∨ allEqHead (qs.map Prod.snd) := by
          rcases hc with h | h
          · exact Or.inr (hsnd.mpr h)
          · exact Or.inl (hfst.mpr h)
        rw [if_pos hc', if_pos hc]
      · have hc' : ¬ (allEqHead (qs.map Prod.fst) ∨ allEqHead (qs.map Prod.snd)) := by
          rintro (h | h)
          · exact hc (Or.inr (hfst.mp h))
          · exact hc (Or.inl (hsnd.mp h))
        rw [if_neg hc', if_neg hc, r0Of_swap E hperm]

theorem calc_corr_symm (E : Ext) (st : Option Table) (a b : String)
    (tp : Option (ℤ × ℤ)) :
    calculate_indicator_correlation E st a b tp
      = calculate_indicator_correlation E st b a tp := by
  simp only [calculate_indicator_correlation]
  set df1 := get_indicator_data st a none tp with hdf1
  set df2 := get_indicator_data st b none tp with hdf2
  have hperm := joinPairs_swap_perm df1 df2
  have hlen : (joinPairs df2 df1).length = (joinPairs df1 df2).length :=
    length_swap_transfer hperm
  by_cases he : df1.isEmpty ∨ df2.isEmpty
  · rw [if_pos he, if_pos (Or.symm he)]
  · rw [if_neg he, if_neg (fun h => he (Or.symm h))]
    have hiff : (joinPairs df2 df1).isEmpty ↔ (joinPairs df1 df2).isEmpty := by
      rw [List.isEmpty_iff, List.isEmpty_iff, ← List.length_eq_zero,
        ← List.length_eq_zero, hlen]
    by_cases hm : (joinPairs df1 df2).isEmpty
    · rw [if_pos hm, if_pos (hiff.mpr hm)]
    · rw [if_neg hm, if_neg (fun h => hm (hiff.mp h)), pearsonE_swap E hperm]

theorem getD_map_range {β : Type} (f : ℕ → β) (d : β) (n k : ℕ) (h : k < n) :
    ((List.range n).map f).getD k d = f k := by
  have h' : k < ((List.range n).map f).length := by simpa using h
  rw [List.getD_eq_getElem _ _ h', List.getElem_map, List.getElem_range]

/-- C7: for every correlation request over any indicator set, each in-range
correlation-matrix cell (i, j) equals cell (j, i), diagonal correlation
cells are 1.0 and diagonal significance cells are 0.0.  Each off-diagonal
cell is computed separately by `_calculate_indicator_correlation`; the
symmetry comes from the symmetry of that pair computation (the inner merge
of the swapped pair is a permutation of the swapped merge, and `pearsonr`
is invariant under swapping the two columns). -/
theorem claim_C7_matrix_symmetry (E : Ext) (st : Option Table)
    (inds : List String) (cs : Option (List String)) (tp : Option (ℤ × ℤ))
    (now : String) (i j : ℕ) (hi : i < inds.length) (hj : j < inds.length) :
    corrMatrixAt (calculate_correlations E st inds cs tp now) i j
      = corrMatrixAt (calculate_correlations E st inds cs tp now) j i
    ∧ corrMatrixAt (calculate_correlations E st inds cs tp now) i i = Fad.fin 1
    ∧ sigMatrixAt (calculate_correlations E st inds cs tp now) i i = Fad.fin 0 := by
  simp only [calculate_correlations]
  split
  · exact ⟨rfl, rfl, rfl⟩
  · simp only [corrMatrixAt, sigMatrixAt]
    refine ⟨?_, ?_, ?_⟩
    · rw [getD_map_range _ _ _ _ hi, getD_map_range _ _ _ _ hj,
        getD_map_range _ _ _ _ hj, getD_map_range _ _ _ _ hi]
      by_cases hij : i = j
      · subst hij; rfl
      · rw [if_neg hij, if_neg (fun h => hij h.symm), calc_corr_symm]
    · rw [getD_map_range _ _ _ _ hi, getD_map_range _ _ _ _ hi, if_pos rfl]
    · rw [getD_map_range _ _ _ _ hi, getD_map_range _ _ _ _ hi, if_pos rfl]

/-- Closed instance of C7 at the two-indicator fixture table. -/
theorem claim_C7_matrix_symmetry_witness :
    (0 < (["a", "b"] : List String).length ∧ 1 < (["a", "b"] : List String).length) ∧
    (corrMatrixAt (calculate_correlations extRef (some tblCorr) ["a", "b"] none none "t") 0 1
      = corrMatrixAt (calculate_correlations extRef (some tblCorr) ["a", "b"] none none "t") 1 0
    ∧ corrMatrixAt (calculate_correlations extRef (some tblCorr) ["a", "b"] none none "t") 0 0
      = Fad.fin 1
    ∧ sigMatrixAt (calculate_correlations extRef (some tblCorr) ["a", "b"] none none "t") 0 0
      = Fad.fin 0) :=
  ⟨⟨by decide, by decide⟩,
    claim_C7_matrix_symmetry extRef (some tblCorr) ["a", "b"] none none "t" 0 1
      (by decide) (by decide)⟩

theorem flatMap_nil_of {α β : Type} (l : List α) (f : α → List β)
    (h : ∀ a ∈ l, f a = []) : l.flatMap f = [] := by
  induction l with
  | nil => rfl
  | cons x t ih =>
      rw [List.flatMap_cons, h x (List.mem_cons_self x t), List.nil_append]
      exact ih fun a ha => h a (List.mem_cons_of_mem x ha)

theorem filterMap_none {α β : Type} (l : List α) (f : α → Option β)
    (h : ∀ a ∈ l, f a = none) : l.filterMap f = [] := by
  induction l with
  | nil => rfl
  | cons x t ih =>
      rw [List.filterMap_cons, h x (List.mem_cons_self x t)]
      exact ih fun a ha => h a (List.mem_cons_of_mem x ha)

theorem detect_impl_nil (E : Ext) (cd : List (String × (String → Option ℚ)))
    (ms : List MetricType) (now : String) :
    detect_anomalies_impl E cd ms now = [] := by
  simp only [detect_anomalies_impl]
  refine flatMap_nil_of _ _ fun c _ => ?_
  refine filterMap_none _ _ fun m _ => ?_
  rcases get_metric_value c.2 m with _ | v
  · rfl
  · rfl

theorem detect_anoms_nil (avail : List String) (req : AnomalyDetectionRequest)
    (now : String) : (detect_anomalies avail req now).anomalies = [] := by
  simp only [detect_anomalies]
  exact flatMap_nil_of _ _ fun p _ => rfl

/-- C3: vacuously confirmed.  `_get_historical_values` returns `[]`
unconditionally, so no (country, metric) pair ever has the claim's
"at least 3 historical points": `_detect_anomalies` produces no alert on
any input, the request path `detect_anomalies` (whose data source and
per-metric detector are also stubs) returns zero anomalies for every
request, and consequently changing the `sensitivity` parameter (in
particular increasing it) never increases the number of flagged
anomalies. -/
theorem claim_C3_sensitivity_vacuous (E : Ext)
    (cd : List (String × (String → Option ℚ))) (ms : List MetricType)
    (now : String) (avail : List String) (req req' : AnomalyDetectionRequest)
    (now' : String) :
    (∀ (c : String) (m : MetricType) (y : ℕ),
      (get_historical_values c m y).length < 3)
    ∧ detect_anomalies_impl E cd ms now = []
    ∧ (detect_anomalies avail req now).anomalies = []
    ∧ (detect_anomalies avail req' now').anomalies.length ≤
        (detect_anomalies avail req now).anomalies.length := by
  refine ⟨fun c m y => by simp [get_historical_values],
    detect_impl_nil E cd ms now, detect_anoms_nil avail req now, ?_⟩
  rw [detect_anoms_nil, detect_anoms_nil]

/-- C1 (amended): every component operation is a deterministic function of
its inputs and the port data UP TO the wall-clock timestamps embedded in
its result: with the clock reading passed explicitly, clearing the
timestamp field makes the outcome independent of the reading, for
correlations, forecasting, the significance test, regression (their
results stamp `generated_at = datetime.utcnow().isoformat()`), anomaly
alerts (each `AnomalyAlert` stamps `detected_at`; in this program the
alert list is always empty), the anomaly-detection response and the
peer-group response (`AnomalyDetectionResponse.generated_at` and
`PeerGroupResponse.generated_at` have `default_factory=datetime.now`, as
does `CountryComparison.generated_at` wrapping the clock-free ranking
computation).  The original byte-identical claim is refuted by the
counterexample: the timestamp field itself does change between calls. -/
theorem claim_C1_deterministic_mod_clock (E : Ext) (st : Option Table)
    (inds : List String) (cs : Option (List String)) (tp : Option (ℤ × ℤ))
    (ind c1 c2 : String) (h : ℕ) (cl : ℚ) (target : String) (preds : List String)
    (cd : List (String × (String → Option ℚ))) (ms : List MetricType)
    (avail : List String) (areq : AnomalyDetectionRequest)
    (gcd : String → Option (String → Option ℚ)) (preq : PeerGroupRequest)
    (now now' : String) :
    corrNoTime (calculate_correlations E st inds cs tp now)
      = corrNoTime (calculate_correlations E st inds cs tp now')
    ∧ forecastNoTime (generate_forecast E st ind c1 h cl now)
      = forecastNoTime (generate_forecast E st ind c1 h cl now')
    ∧ sigNoTime (statistical_significance_test E st ind c1 c2 tp now)
      = sigNoTime (statistical_significance_test E st ind c1 c2 tp now')
    ∧ regNoTime (multi_variable_regression E st target preds cs tp now)
      = regNoTime (multi_variable_regression E st target preds cs tp now')
    ∧ (detect_anomalies_impl E cd ms now).map alertNoTime
      = (detect_anomalies_impl E cd ms now').map alertNoTime
    ∧ anomalyRespNoTime (detect_anomalies avail areq now)
      = anomalyRespNoTime (detect_anomalies avail areq now')
    ∧ peerNoTime (find_peer_groups gcd avail preq now)
      = peerNoTime (find_peer_groups gcd avail preq now') := by
  refine ⟨?_, ?_, ?_, ?_, ?_, ?_, ?_⟩
  · simp only [calculate_correlations]
    split
    · rfl
    · rfl
  · simp only [generate_forecast]
    split
    · rfl
    · rfl
  · simp only [statistical_significance_test]
    split
    · rfl
    · rfl
  · simp only [multi_variable_regression]
    split
    · rfl
    · split
      · rfl
      · split
        · rfl
        · rfl
  · rw [detect_impl_nil, detect_impl_nil]
  · rfl
  · rfl

/-- C1 counterexample: the full significance-test result (with its
`generated_at` field) differs between two calls with identical analytic
inputs but different clock readings. -/
theorem claim_C1_counterexample :
    statistical_significance_test extRef (some tblSig) "le" "P" "Q" none "A"
      ≠ statistical_significance_test extRef (some tblSig) "le" "P" "Q" none "B" := by
  intro hEq
  have e1 : sigGenAt (statistical_significance_test extRef (some tblSig)
      "le" "P" "Q" none "A") = "A" := rfl
  have e2 : sigGenAt (statistical_significance_test extRef (some tblSig)
      "le" "P" "Q" none "B") = "B" := rfl
  rw [hEq] at e1
  rw [e2] at e1
  exact absurd e1 (by decide)

end PolicySim
